import Mathlib

/-!
Shallow embedding of the AI-terminal command interpreter and workflow
predictor (hooks/useTerminal.ts of the repository).  JavaScript strings are
modelled as Lean `String`; all string operations used by the source
(`trim`, `toLowerCase`, `split(' ')`, `startsWith`, `includes`, `indexOf`,
`parseInt`, array truthiness) are defined below by structural recursion on
the character list so that every definition is executable in the kernel.
The clock (`Date.now()`, `new Date()`) and the random source
(`Math.random()`) are injected as an explicit `Env` parameter, one field
per call-site shape, as the spec's determinism section prescribes.
-/

namespace AITerm

/-- ASCII whitespace recognised by the model of JavaScript `trim`. -/
def isWsChar (c : Char) : Bool := c == ' ' || c == '\t' || c == '\n' || c == '\r'

/-- Model of JavaScript `toLowerCase` on one character (ASCII range). -/
def charLower (c : Char) : Char :=
  if 65 ≤ c.toNat && c.toNat ≤ 90 then Char.ofNat (c.toNat + 32) else c

/-- Model of JavaScript `String.prototype.toLowerCase`. -/
def strLower (s : String) : String := ⟨s.data.map charLower⟩

/-- Trim whitespace from both ends of a character list. -/
def trimList (l : List Char) : List Char :=
  ((l.dropWhile isWsChar).reverse.dropWhile isWsChar).reverse

/-- Model of JavaScript `String.prototype.trim`. -/
def strTrim (s : String) : String := ⟨trimList s.data⟩

/-- Model of JavaScript `s.startsWith(p)`: `startsWithStr s p`. -/
def startsWithStr (s p : String) : Bool := p.data.isPrefixOf s.data

/-- Whether `needle` occurs contiguously inside the list. -/
def containsList (needle : List Char) : List Char → Bool
  | [] => needle.isEmpty
  | c :: rest => needle.isPrefixOf (c :: rest) || containsList needle rest

/-- Model of JavaScript `hay.includes(needle)`: `containsStr hay needle`. -/
def containsStr (hay needle : String) : Bool := containsList needle.data hay.data

/-- Split a character list on a separator character; like JavaScript
`split(sep)`, consecutive separators yield empty fields. -/
def splitCharAux (sep : Char) : List Char → List Char → List String
  | [], acc => [String.mk acc.reverse]
  | c :: cs, acc =>
    if c == sep then String.mk acc.reverse :: splitCharAux sep cs []
    else splitCharAux sep cs (c :: acc)

/-- Model of JavaScript `s.split(sep)` for a one-character separator. -/
def splitStr (sep : Char) (s : String) : List String := splitCharAux sep s.data []

/-- The Executor's tokenisation: `command.trim().split(' ')`. -/
def parseArgs (command : String) : List String := splitStr ' ' (strTrim command)

/-- Model of JavaScript `Array.prototype.join`. -/
def joinSep (sep : String) : List String → String
  | [] => ""
  | [s] => s
  | s :: rest => s ++ sep ++ joinSep sep rest

/-- JavaScript truthiness of `args[i]`: `undefined` and `''` are falsy. -/
def truthy : Option String → Bool
  | none => false
  | some s => !s.data.isEmpty

/-- Template interpolation of a possibly-undefined value. -/
def interp : Option String → String
  | none => "undefined"
  | some s => s

/-- JavaScript `x || d` for a possibly-undefined string. -/
def orElseStr (v : Option String) (d : String) : String :=
  match v with
  | none => d
  | some s => if s.data.isEmpty then d else s

/-- JavaScript `x || d` for a possibly-NaN number (`0` is falsy). -/
def orElseInt (v : Option Int) (d : Int) : Int :=
  match v with
  | none => d
  | some n => if n = 0 then d else n

/-- JavaScript `x || d` for an optional size (`0` is falsy). -/
def orElseNat (v : Option Nat) (d : Nat) : Nat :=
  match v with
  | none => d
  | some n => if n = 0 then d else n

/-- Leading decimal-digit run of a character list, if non-empty. -/
def leadingNat (l : List Char) : Option Nat :=
  let ds := l.takeWhile Char.isDigit
  if ds.isEmpty then none
  else some (ds.foldl (fun a c => a * 10 + (c.toNat - 48)) 0)

/-- Model of JavaScript `parseInt` (base 10): optional sign then a leading
digit run; `none` stands for `NaN`. -/
def parseIntJS (s : String) : Option Int :=
  match s.data.dropWhile isWsChar with
  | '-' :: rest => (leadingNat rest).map (fun n => -(n : Int))
  | '+' :: rest => (leadingNat rest).map Int.ofNat
  | l => (leadingNat l).map Int.ofNat

/-- First position of `x` in a list of strings (JavaScript `indexOf`,
restricted to the guarded uses in the source). -/
def idxOf : List String → String → Nat
  | [], _ => 0
  | s :: rest, x => if s == x then 0 else idxOf rest x + 1

/-- Access `args[i]` as an optional value (`none` models `undefined`). -/
def getArg (args : List String) (i : Nat) : Option String := args.get? i

/-! ## Data model (types/terminal.ts) -/

/-- Structure `FileSystemItem` of types/terminal.ts; `type` is the `'file' | 'directory'`
union, `modified` (a `Date`) is modelled as an abstract instant. -/
structure FileSystemItem where
  name : String
  type : String
  size : Option Nat := none
  permissions : Option String := none
  modified : Option Nat := none
deriving DecidableEq

/-- Structure `TerminalCommand` of types/terminal.ts (`timestamp : Date` as an
abstract instant, `exitCode : number` as `Nat`). -/
structure TerminalCommand where
  id : String
  command : String
  output : String
  timestamp : Nat
  exitCode : Nat
  directory : String
deriving DecidableEq

/-- Structure `TerminalState` of types/terminal.ts; the `Record<string, FileSystemItem[]>`
file system is an association list keyed by absolute path. -/
structure TerminalState where
  currentDirectory : String
  history : List TerminalCommand
  fileSystem : List (String × List FileSystemItem)
  isExecuting : Bool
deriving DecidableEq

/-- Key presence in the virtual file system (JavaScript
`state.fileSystem[path]` truthiness: any array, even empty, is truthy). -/
def vfsHas (fs : List (String × List FileSystemItem)) (p : String) : Bool :=
  (fs.lookup p).isSome

/-- Lookup `state.fileSystem[path] || []`. -/
def vfsGet (fs : List (String × List FileSystemItem)) (p : String) : List FileSystemItem :=
  (fs.lookup p).getD []

/-- The injected clock / random source.  Each field stands for one shape of
`Date` / `Math.random` call site in the source; fixing an `Env` fixes every
nondeterministic input, as §8 of the spec prescribes. -/
structure Env where
  /-- Value of `Date.now().toString()` — the record id. -/
  nowId : String
  /-- Value of `new Date()` — the record timestamp instant. -/
  timestamp : Nat
  /-- Value of `new Date().toLocaleDateString()` (ls long format). -/
  localeDateString : String
  /-- Value of `new Date().toUTCString()` (curl -I). -/
  utcString : String
  /-- Value of `new Date().toISOString()` (wget). -/
  isoString : String
  /-- Value of `new Date().toString()` (dig, date). -/
  dateString : String
  /-- Value of `(Math.random() * 5 + 10).toFixed(3)` for ping line `i`. -/
  pingTime : Nat → String
  /-- Value of `(Math.random() * 2 + 12).toFixed(3)` in the ping summary. -/
  pingAvg : String

/-- The mock file system seeded at session start. -/
def mockFileSystem : List (String × List FileSystemItem) :=
  [ ("/",
     [ { name := "home", type := "directory", permissions := some "drwxr-xr-x" },
       { name := "etc", type := "directory", permissions := some "drwxr-xr-x" },
       { name := "var", type := "directory", permissions := some "drwxr-xr-x" },
       { name := "usr", type := "directory", permissions := some "drwxr-xr-x" },
       { name := "bin", type := "directory", permissions := some "drwxr-xr-x" } ]),
    ("/home",
     [ { name := "user", type := "directory", permissions := some "drwxr-xr-x" },
       { name := "guest", type := "directory", permissions := some "drwxr-xr-x" } ]),
    ("/home/user",
     [ { name := "documents", type := "directory", permissions := some "drwxr-xr-x" },
       { name := "downloads", type := "directory", permissions := some "drwxr-xr-x" },
       { name := "projects", type := "directory", permissions := some "drwxr-xr-x" },
       { name := ".bashrc", type := "file", size := some 3423, permissions := some "-rw-r--r--" },
       { name := "readme.txt", type := "file", size := some 1024, permissions := some "-rw-r--r--" } ]),
    ("/home/user/projects",
     [ { name := "ai-terminal", type := "directory", permissions := some "drwxr-xr-x" },
       { name := "web-app", type := "directory", permissions := some "drwxr-xr-x" },
       { name := "script.sh", type := "file", size := some 512, permissions := some "-rwxr-xr-x" } ])
  ]

/-! ## Workflow predictor (predictWorkflow) -/

/-- The AI-powered workflow prediction pattern table, in source
(insertion) order — `Object.entries` enumerates it in this order. -/
def workflowPatterns : List (String × String) :=
  [ ("find", "find . -name \"*.txt\" -type f"),
    ("find .", "find . -name \"*.txt\" -type f"),
    ("grep", "grep -r \"pattern\" ."),
    ("grep -", "grep -r \"pattern\" ."),
    ("ls", "ls -la"),
    ("cat", "cat filename.txt"),
    ("tail", "tail -f /var/log/syslog"),
    ("head", "head -n 20 filename.txt"),
    ("ping", "ping -c 4 google.com"),
    ("curl", "curl -I https://google.com"),
    ("wget", "wget https://example.com/file.txt"),
    ("netstat", "netstat -tuln"),
    ("ss", "ss -tuln"),
    ("traceroute", "traceroute google.com"),
    ("nslookup", "nslookup google.com"),
    ("dig", "dig google.com"),
    ("lsof", "lsof -i :80"),
    ("ps", "ps aux | grep process"),
    ("top", "top"),
    ("htop", "htop"),
    ("df", "df -h"),
    ("du", "du -sh *"),
    ("free", "free -h"),
    ("chmod", "chmod 755 filename"),
    ("chown", "chown user:group filename"),
    ("tar", "tar -czf archive.tar.gz directory/"),
    ("unzip", "unzip file.zip"),
    ("zip", "zip -r archive.zip directory/"),
    ("uname", "uname -a"),
    ("lscpu", "lscpu"),
    ("lsblk", "lsblk"),
    ("mount", "mount | grep \"^/\""),
    ("who", "whoami"),
    ("date", "date +\"%Y-%m-%d %H:%M:%S\"")
  ]

/-- The direct pattern-matching loop of `predictWorkflow`: the first entry
whose key **starts with** the (normalised) input and differs from it. -/
def staticFind (input : String) : Option String :=
  workflowPatterns.findSome? fun pv =>
    if startsWithStr pv.1 input && pv.1 != input then some pv.2 else none

/-- The context-aware decision table of `predictWorkflow`, applied to the
normalised input and the lower-cased text of the most recent command. -/
def historyRules (input lastCommand : String) : Option String :=
  if containsStr lastCommand "git status" && startsWithStr input "git"
      && (input == "git" || input == "git ") then some "git add ."
  else if containsStr lastCommand "git add" && startsWithStr input "git"
      && (input == "git" || input == "git ") then some "git commit -m \"Update\""
  else if containsStr lastCommand "git commit" && startsWithStr input "git"
      && (input == "git" || input == "git ") then some "git push origin main"
  else if containsStr lastCommand "ping" && startsWithStr input "tr" then
    some "traceroute google.com"
  else if containsStr lastCommand "ping" && startsWithStr input "ns" then
    some "nslookup google.com"
  else if containsStr lastCommand "find" && startsWithStr input "gr" then
    some "grep -r \"pattern\" ."
  else none

/-- Body of `predictWorkflow` on the already-normalised input: the direct
pattern-matching loop first, then (only for a non-empty history) the
context-aware rules on the most recent command. -/
def predictCore (input : String) (history : List TerminalCommand) : Option String :=
  match staticFind input with
  | some s => some s
  | none =>
    match history.getLast? with
    | none => none
    | some last => historyRules input (strLower last.command)

/-- Function `predictWorkflow(currentInput, history)`:
`const input = currentInput.toLowerCase().trim()` then the two phases. -/
def predictWorkflow (currentInput : String) (history : List TerminalCommand) :
    Option String :=
  predictCore (strTrim (strLower currentInput)) history

/-! ## Command executor (executeCommand) -/

/-- The `(output, exitCode, newDirectory)` triple a handler produces. -/
structure ExecResult where
  output : String
  exitCode : Nat
  newDirectory : String
deriving DecidableEq

/-- Resolution of the `cd` target, exactly as in the `case 'cd'` handler:
falsy / `~` go home, `..` drops the last non-empty path segment, a leading
`/` is taken verbatim, anything else is appended to the current directory.
(The source's `if (newDirectory === '/') newDirectory = '/'` is a no-op and
is not reproduced.) -/
def resolveCd (cur : String) (targetDir : Option String) : String :=
  if truthy targetDir = false ∨ targetDir = some "~" then "/home/user"
  else if targetDir = some ".." then
    "/" ++ joinSep "/" (((splitStr '/' cur).filter (fun s => !s.isEmpty)).dropLast)
  else
    let t := interp targetDir
    if startsWithStr t "/" then t
    else if cur = "/" then "/" ++ t
    else cur ++ "/" ++ t

/-- One line of `ls -l` output for one entry. -/
def lsLongLine (env : Env) (item : FileSystemItem) : String :=
  orElseStr item.permissions "drwxr-xr-x" ++ " 1 user user "
    ++ toString (orElseNat item.size 4096) ++ " " ++ env.localeDateString
    ++ " " ++ item.name

/-- The text of `cat readme.txt`. -/
def readmeText : String :=
  "Welcome to AI Terminal v2.0!\n\nThis revolutionary Linux terminal emulator features:\n\n🧠 AI-POWERED WORKFLOW PREDICTION\n- Start typing any command and watch AI predict your entire workflow\n- Press TAB to accept predictions\n- Context-aware suggestions based on your recent commands\n\n🌐 ADVANCED NETWORKING TOOLS\n- ping, curl, wget, traceroute, nslookup, dig\n- netstat, ss for connection monitoring\n- Real-time network diagnostics\n\n🔧 COMPREHENSIVE LINUX COMMANDS\n- File operations: ls, cd, pwd, cat, find, grep\n- System monitoring: ps, top, df, du, free\n- Permissions: chmod, chown\n- Archives: tar, unzip\n\n💡 BILLION-DOLLAR FEATURES\n- Predictive command completion\n- Context-aware AI assistance\n- Real-time error prevention\n- Intelligent workflow suggestions\n\nTry typing \"find\" or \"git\" and see the magic happen!"

/-- The text of `cat .bashrc`. -/
def bashrcText : String :=
  "# ~/.bashrc: executed by bash(1) for non-login shells.\n\nexport PATH=$HOME/bin:/usr/local/bin:$PATH\nexport EDITOR=nano\n\n# AI Terminal aliases\nalias ll=\x27ls -la\x27\nalias la=\x27ls -A\x27\nalias l=\x27ls -CF\x27\nalias ..=\x27cd ..\x27\nalias ...=\x27cd ../..\x27\n\n# Network shortcuts\nalias ports=\x27netstat -tuln\x27\nalias connections=\x27ss -tuln\x27\nalias myip=\x27curl -s ifconfig.me\x27\n\n# AI-powered shortcuts\nalias predict=\x27echo \"AI workflow prediction active - just start typing!\"\x27\n\n# Welcome message\necho \"🧠 AI Terminal v2.0 - Linux with Neural Engine superpowers!\""

/-- One `ping` echo line. -/
def pingLine (env : Env) (i : Nat) : String :=
  "64 bytes from 142.250.191.14: icmp_seq=" ++ toString i
    ++ " ttl=55 time=" ++ env.pingTime i ++ " ms"

/-- The static `help` reference text. -/
def helpText : String :=
  "AI Terminal - Linux Command Reference\n\nFILE SYSTEM:\n  ls [-la]         List directory contents\n  cd [dir]         Change directory  \n  pwd              Print working directory\n  mkdir [dir]      Create directories\n  rmdir [dir]      Remove empty directories\n  rm [-rf] [file]  Remove files and directories\n  cp [-r] [src] [dst]  Copy files and directories\n  mv [src] [dst]   Move/rename files\n  find [path] [expr]   Search for files and directories\n  locate [pattern] Find files by name\n  which [cmd]      Locate command\n  touch [file]     Create empty files or update timestamps\n  ln [-s] [target] [link]  Create links\n\nTEXT PROCESSING:\n  cat [file]       Display file contents\n  less [file]      View file contents page by page\n  head [-n] [file] Display first lines of file\n  tail [-f] [file] Display last lines of file\n  grep [-r] [pattern] [file]  Search text patterns\n  sed [script] [file]  Stream editor for text\n  awk [pattern] [file]  Text processing tool\n  cut [-d] [-f] [file]  Extract columns from text\n  sort [-n] [file] Sort lines in text files\n  uniq [file]      Report or omit repeated lines\n  wc [-l] [file]   Word, line, character count\n  tr [set1] [set2] Translate or delete characters\n\nNETWORKING:\n  ping [-c] [host] Test connectivity\n  curl [-I] [url]  HTTP client\n  wget [url]       Download files from web\n  netstat [-tuln]  Display network connections\n  ss [-tuln]       Modern netstat replacement\n  traceroute [host]  Trace network path\n  nslookup [host]  DNS lookup utility\n  dig [host]       Advanced DNS lookup\n  host [host]      DNS lookup utility\n  lsof [-i] [port] List open files and connections\n  nc [host] [port] Netcat network utility\n  ssh [user@host]  Secure shell remote login\n  scp [src] [dst]  Secure copy over SSH\n\nPROCESS MANAGEMENT:\n  ps [aux]         Display running processes\n  top              Display processes (real-time)\n  htop             Interactive process viewer\n  kill [PID]       Terminate processes\n  killall [name]   Kill processes by name\n  pgrep [pattern]  Find process IDs by name\n  jobs             Display active jobs\n  bg [job]         Put job in background\n  fg [job]         Bring job to foreground\n\nSYSTEM INFO:\n  df [-h]          Display filesystem disk space\n  du [-sh] [dir]   Display directory space usage\n  free [-h]        Display memory usage\n  uptime           Show system uptime and load\n  uname [-a]       System information\n  lscpu            Display CPU information\n  lsblk            List block devices\n  mount            Display mounted filesystems\n  whoami           Display current username\n  who              Show logged in users\n  date             Display or set date\n\nPERMISSIONS:\n  chmod [mode] [file]  Change file permissions\n  chown [owner] [file] Change file ownership\n  chgrp [group] [file] Change group ownership\n\nARCHIVES:\n  tar [-czf] [archive] [files]  Archive files\n  gzip [file]      Compress files\n  gunzip [file]    Decompress gzip files\n  zip [-r] [archive] [files]  Create zip archives\n  unzip [archive]  Extract zip archives\n\nPIPES & REDIRECTION:\n  |    Pipe output to next command\n  >    Redirect output to file (overwrite)\n  >>   Redirect output to file (append)\n  <    Redirect input from file\n  &&   Execute next if previous succeeds\n  ||   Execute next if previous fails\n\nCOMMON COMBINATIONS:\n  ps aux | grep [process]\n  find . -name \"*.log\" | xargs grep \"error\"\n  ls -la | grep \"^d\"\n  netstat -tuln | grep :80\n  df -h | grep -v tmpfs\n\nType \x27help [command]\x27 for detailed info about a specific command.\nAI assistance available - just ask for help with any task!"

/-- Continuation of the `switch (cmd)` dispatch, cases `mkdir` … `nohup`
and the `default` (command-not-found) case, in source order. -/
def runCommandRest (args : List String) (cmd cur : String) : ExecResult :=
  if cmd = "mkdir" then
    let dirName := getArg args 1
    if !truthy dirName then ⟨"mkdir: missing operand", 1, cur⟩
    else ⟨"Directory \x27" ++ interp dirName ++ "\x27 created", 0, cur⟩
  else if cmd = "rmdir" then
    let dirName := getArg args 1
    if !truthy dirName then ⟨"rmdir: missing operand", 1, cur⟩
    else ⟨"Directory \x27" ++ interp dirName ++ "\x27 removed", 0, cur⟩
  else if cmd = "rm" then
    let fileName := getArg args 1
    if !truthy fileName then ⟨"rm: missing operand", 1, cur⟩
    else if args.contains "-rf" then
      ⟨"Removed \x27" ++ interp fileName ++ "\x27 and its contents", 0, cur⟩
    else ⟨"Removed \x27" ++ interp fileName ++ "\x27", 0, cur⟩
  else if cmd = "cp" then
    let src := getArg args 1
    let dest := getArg args 2
    if !truthy src || !truthy dest then ⟨"cp: missing file operand", 1, cur⟩
    else ⟨"\x27" ++ interp src ++ "\x27 copied to \x27" ++ interp dest ++ "\x27", 0, cur⟩
  else if cmd = "mv" then
    let src := getArg args 1
    let dest := getArg args 2
    if !truthy src || !truthy dest then ⟨"mv: missing file operand", 1, cur⟩
    else ⟨"\x27" ++ interp src ++ "\x27 moved to \x27" ++ interp dest ++ "\x27", 0, cur⟩
  else if cmd = "touch" then
    let fileName := getArg args 1
    if !truthy fileName then ⟨"touch: missing file operand", 1, cur⟩
    else ⟨"File \x27" ++ interp fileName ++ "\x27 created/updated", 0, cur⟩
  else if cmd = "ln" then
    let target := getArg args 1
    let link := getArg args 2
    if !truthy target || !truthy link then ⟨"ln: missing operand", 1, cur⟩
    else if args.contains "-s" then
      ⟨"Symbolic link \x27" ++ interp link ++ "\x27 created pointing to \x27"
        ++ interp target ++ "\x27", 0, cur⟩
    else
      ⟨"Hard link \x27" ++ interp link ++ "\x27 created for \x27"
        ++ interp target ++ "\x27", 0, cur⟩
  else if cmd = "which" then
    let cmdName := getArg args 1
    if !truthy cmdName then ⟨"which: missing argument", 1, cur⟩
    else ⟨"/usr/bin/" ++ interp cmdName, 0, cur⟩
  else if cmd = "whereis" then
    let cmdName := getArg args 1
    if !truthy cmdName then ⟨"whereis: missing argument", 1, cur⟩
    else
      ⟨interp cmdName ++ ": /usr/bin/" ++ interp cmdName
        ++ " /usr/share/man/man1/" ++ interp cmdName ++ ".1.gz", 0, cur⟩
  else if cmd = "locate" then
    let pat := getArg args 1
    if !truthy pat then ⟨"locate: missing pattern", 1, cur⟩
    else
      ⟨"/home/user/documents/" ++ interp pat ++ "\n/usr/share/doc/" ++ interp pat
        ++ "\n/var/log/" ++ interp pat ++ ".log", 0, cur⟩
  else if cmd = "less" ∨ cmd = "more" then
    let fileName := getArg args 1
    if !truthy fileName then ⟨cmd ++ ": missing file operand", 1, cur⟩
    else if fileName = some "readme.txt" then
      ⟨"Viewing " ++ interp fileName
        ++ " (press \x27q\x27 to quit)\n\nWelcome to AI Terminal!\n\nThis is a comprehensive Linux terminal emulator with AI assistance.\nSupports 100+ Linux commands for file operations, networking, and system administration.\n\n[Press \x27q\x27 to quit, \x27space\x27 for next page]", 0, cur⟩
    else ⟨cmd ++ ": " ++ interp fileName ++ ": No such file or directory", 1, cur⟩
  else if cmd = "head" then
    let fileName := getArg args 1
    let _lines : Int :=
      if args.contains "-n" then
        orElseInt (parseIntJS (interp (getArg args (idxOf args "-n" + 1)))) 10
      else 10
    if !truthy fileName then ⟨"head: missing file operand", 1, cur⟩
    else if fileName = some "readme.txt" then
      ⟨"Welcome to AI Terminal!\n\nThis is a comprehensive Linux terminal emulator with AI assistance.\nSupports 100+ Linux commands for file operations, networking, and system administration.\n\nFeatures:\n- File system operations\n- Network diagnostics\n- Text processing\n- System monitoring", 0, cur⟩
    else ⟨"head: " ++ interp fileName ++ ": No such file or directory", 1, cur⟩
  else if cmd = "tail" then
    let fileName := getArg args 1
    let _lines : Int :=
      if args.contains "-n" then
        orElseInt (parseIntJS (interp (getArg args (idxOf args "-n" + 1)))) 10
      else 10
    if !truthy fileName then ⟨"tail: missing file operand", 1, cur⟩
    else if fileName = some "/var/log/syslog" ∨ args.contains "-f" then
      ⟨"Jan 20 10:30:15 ai-terminal systemd[1]: Started AI Terminal Service\nJan 20 10:30:16 ai-terminal kernel: [12345.678] AI Terminal: Neural engine initialized\nJan 20 10:30:17 ai-terminal ai-terminal[1234]: Command prediction engine ready\nJan 20 10:30:18 ai-terminal ai-terminal[1234]: Network diagnostics module loaded\nJan 20 10:30:19 ai-terminal ai-terminal[1234]: File system monitor active\n"
        ++ (if args.contains "-f" then "\n[Following log file - press Ctrl+C to stop]" else ""),
        0, cur⟩
    else ⟨"tail: " ++ interp fileName ++ ": No such file or directory", 1, cur⟩
  else if cmd = "wc" then
    let fileName := getArg args 1
    if !truthy fileName then ⟨"wc: missing file operand", 1, cur⟩
    else if fileName = some "readme.txt" then
      if args.contains "-l" then ⟨"25 readme.txt", 0, cur⟩
      else if args.contains "-w" then ⟨"156 readme.txt", 0, cur⟩
      else if args.contains "-c" then ⟨"1024 readme.txt", 0, cur⟩
      else ⟨"  25  156 1024 readme.txt", 0, cur⟩
    else ⟨"wc: " ++ interp fileName ++ ": No such file or directory", 1, cur⟩
  else if cmd = "sort" then
    let fileName := getArg args 1
    if !truthy fileName then ⟨"sort: missing file operand", 1, cur⟩
    else ⟨"apple\nbanana\ncherry\ndate\nfig\ngrape", 0, cur⟩
  else if cmd = "uniq" then
    let fileName := getArg args 1
    if !truthy fileName then ⟨"uniq: missing file operand", 1, cur⟩
    else ⟨"apple\nbanana\ncherry", 0, cur⟩
  else if cmd = "cut" then
    let _fileName := args.getLastD ""
    if args.contains "-d" && args.contains "-f" then
      ⟨"user\nroot\ndaemon\nbin", 0, cur⟩
    else if args.contains "-c" then
      ⟨"abcdefghij\nklmnopqrst\nuvwxyz1234", 0, cur⟩
    else ⟨"cut: you must specify a list of bytes, characters, or fields", 1, cur⟩
  else if cmd = "tr" then
    if args.length < 3 then ⟨"tr: missing operand", 1, cur⟩
    else ⟨"Character translation completed", 0, cur⟩
  else if cmd = "sed" then
    let fileName := args.getLastD ""
    if fileName.data.isEmpty || args.length < 2 then ⟨"sed: missing script or file", 1, cur⟩
    else ⟨"Text substitution completed on " ++ fileName, 0, cur⟩
  else if cmd = "awk" then
    let fileName := args.getLastD ""
    if fileName.data.isEmpty || args.length < 2 then ⟨"awk: missing script or file", 1, cur⟩
    else ⟨"field1\nfield2\nfield3", 0, cur⟩
  else if cmd = "kill" then
    let pid := getArg args 1
    if !truthy pid then ⟨"kill: missing process ID", 1, cur⟩
    else ⟨"Process " ++ interp pid ++ " terminated", 0, cur⟩
  else if cmd = "killall" then
    let processName := getArg args 1
    if !truthy processName then ⟨"killall: missing process name", 1, cur⟩
    else ⟨"Killed all " ++ interp processName ++ " processes", 0, cur⟩
  else if cmd = "pgrep" then
    let pat := getArg args 1
    if !truthy pat then ⟨"pgrep: missing pattern", 1, cur⟩
    else ⟨"1234\n1235\n1236", 0, cur⟩
  else if cmd = "pkill" then
    let pat := getArg args 1
    if !truthy pat then ⟨"pkill: missing pattern", 1, cur⟩
    else ⟨"Killed processes matching \x27" ++ interp pat ++ "\x27", 0, cur⟩
  else if cmd = "jobs" then
    ⟨"[1]+  Running                 long-running-script &\n[2]-  Stopped                 vim document.txt", 0, cur⟩
  else if cmd = "bg" then ⟨"[1]+ long-running-script &", 0, cur⟩
  else if cmd = "fg" then ⟨"vim document.txt", 0, cur⟩
  else if cmd = "uptime" then
    ⟨" 10:30:15 up 2 days,  3:45,  2 users,  load average: 0.15, 0.25, 0.30", 0, cur⟩
  else if cmd = "who" then
    ⟨"user     pts/0        2024-01-20 09:00 (192.168.1.100)\nroot     tty1         2024-01-20 08:30", 0, cur⟩
  else if cmd = "w" then
    ⟨" 10:30:15 up 2 days,  3:45,  2 users,  load average: 0.15, 0.25, 0.30\nUSER     TTY      FROM             LOGIN@   IDLE   JCPU   PCPU WHAT\nuser     pts/0    192.168.1.100    09:00    0.00s  0.05s  0.01s w\nroot     tty1     -                08:30    1:30m  0.02s  0.02s -bash", 0, cur⟩
  else if cmd = "last" then
    ⟨"user     pts/0        192.168.1.100    Sat Jan 20 09:00   still logged in\nuser     pts/0        192.168.1.100    Fri Jan 19 14:30 - 18:45  (04:15)\nroot     tty1                          Sat Jan 20 08:30   still logged in", 0, cur⟩
  else if cmd = "id" then
    let user := orElseStr (getArg args 1) "user"
    ⟨"uid=1000(" ++ user ++ ") gid=1000(" ++ user ++ ") groups=1000(" ++ user
      ++ "),4(adm),24(cdrom),27(sudo),30(dip),46(plugdev),120(lpadmin),131(lxd),132(sambashare)",
      0, cur⟩
  else if cmd = "history" then
    ⟨"    1  ls -la\n    2  cd projects\n    3  find . -name \"*.txt\"\n    4  grep -r \"pattern\" .\n    5  ps aux | grep python\n    6  netstat -tuln\n    7  ping google.com\n    8  history", 0, cur⟩
  else if cmd = "alias" then
    if args.length = 1 then
      ⟨"alias ll=\x27ls -la\x27\nalias la=\x27ls -A\x27\nalias l=\x27ls -CF\x27\nalias ..=\x27cd ..\x27\nalias grep=\x27grep --color=auto\x27", 0, cur⟩
    else ⟨"Alias \x27" ++ interp (getArg args 1) ++ "\x27 created", 0, cur⟩
  else if cmd = "unalias" then
    let aliasName := getArg args 1
    if !truthy aliasName then ⟨"unalias: missing alias name", 1, cur⟩
    else ⟨"Alias \x27" ++ interp aliasName ++ "\x27 removed", 0, cur⟩
  else if cmd = "type" then
    let cmdName := getArg args 1
    if !truthy cmdName then ⟨"type: missing argument", 1, cur⟩
    else ⟨interp cmdName ++ " is /usr/bin/" ++ interp cmdName, 0, cur⟩
  else if cmd = "file" then
    let fileName := getArg args 1
    if !truthy fileName then ⟨"file: missing file operand", 1, cur⟩
    else if fileName = some "readme.txt" then ⟨"readme.txt: ASCII text", 0, cur⟩
    else if fileName = some "script.sh" then
      ⟨"script.sh: Bourne-Again shell script, ASCII text executable", 0, cur⟩
    else ⟨interp fileName ++ ": cannot open (No such file or directory)", 1, cur⟩
  else if cmd = "stat" then
    let fileName := getArg args 1
    if !truthy fileName then ⟨"stat: missing file operand", 1, cur⟩
    else if fileName = some "readme.txt" then
      ⟨"  File: readme.txt\n  Size: 1024      \tBlocks: 8          IO Block: 4096   regular file\nDevice: 801h/2049d\tInode: 123456      Links: 1\nAccess: (0644/-rw-r--r--)  Uid: ( 1000/    user)   Gid: ( 1000/    user)\nAccess: 2024-01-20 09:00:00.000000000 +0000\nModify: 2024-01-20 08:30:00.000000000 +0000\nChange: 2024-01-20 08:30:00.000000000 +0000", 0, cur⟩
    else ⟨"stat: cannot stat \x27" ++ interp fileName ++ "\x27: No such file or directory", 1, cur⟩
  else if cmd = "basename" then
    let path := getArg args 1
    if !truthy path then ⟨"basename: missing operand", 1, cur⟩
    else ⟨(splitStr '/' (interp path)).getLastD "", 0, cur⟩
  else if cmd = "dirname" then
    let path := getArg args 1
    if !truthy path then ⟨"dirname: missing operand", 1, cur⟩
    else
      let joined := joinSep "/" ((splitStr '/' (interp path)).dropLast)
      ⟨if joined.data.isEmpty then "/" else joined, 0, cur⟩
  else if cmd = "cal" then
    let _month := getArg args 1
    let _year := getArg args 2
    if args.contains "-y" then
      ⟨"                            2024\n      January               February               March\nSu Mo Tu We Th Fr Sa  Su Mo Tu We Th Fr Sa  Su Mo Tu We Th Fr Sa\n    1  2  3  4  5  6               1  2  3                  1  2\n 7  8  9 10 11 12 13   4  5  6  7  8  9 10   3  4  5  6  7  8  9\n14 15 16 17 18 19 20  11 12 13 14 15 16 17  10 11 12 13 14 15 16\n21 22 23 24 25 26 27  18 19 20 21 22 23 24  17 18 19 20 21 22 23\n28 29 30 31           25 26 27 28 29        24 25 26 27 28 29 30\n                                            31", 0, cur⟩
    else
      ⟨"    January 2024\nSu Mo Tu We Th Fr Sa\n    1  2  3  4  5  6\n 7  8  9 10 11 12 13\n14 15 16 17 18 19 20\n21 22 23 24 25 26 27\n28 29 30 31", 0, cur⟩
  else if cmd = "gzip" then
    let fileName := getArg args 1
    if !truthy fileName then ⟨"gzip: missing file operand", 1, cur⟩
    else
      ⟨"File \x27" ++ interp fileName ++ "\x27 compressed to \x27"
        ++ interp fileName ++ ".gz\x27", 0, cur⟩
  else if cmd = "gunzip" then
    let fileName := getArg args 1
    if !truthy fileName then ⟨"gunzip: missing file operand", 1, cur⟩
    else ⟨"File \x27" ++ interp fileName ++ "\x27 decompressed", 0, cur⟩
  else if cmd = "zip" then
    let archive := getArg args 1
    let files := args.drop 2
    if !truthy archive || files.length = 0 then
      ⟨"zip: missing archive name or files", 1, cur⟩
    else
      ⟨"  adding: " ++ joinSep "\n  adding: " files ++ "\nArchive \x27"
        ++ interp archive ++ "\x27 created", 0, cur⟩
  else if cmd = "chgrp" then
    let group := getArg args 1
    let file := getArg args 2
    if !truthy group || !truthy file then ⟨"chgrp: missing operand", 1, cur⟩
    else
      ⟨"Group ownership of \x27" ++ interp file ++ "\x27 changed to \x27"
        ++ interp group ++ "\x27", 0, cur⟩
  else if cmd = "umask" then
    if args.length = 1 then ⟨"0022", 0, cur⟩
    else ⟨"umask set to " ++ interp (getArg args 1), 0, cur⟩
  else if cmd = "watch" then
    let watchCmd := joinSep " " (args.drop 1)
    if watchCmd.data.isEmpty then ⟨"watch: missing command", 1, cur⟩
    else
      ⟨"Every 2.0s: " ++ watchCmd
        ++ "\n\n[Command output would refresh here every 2 seconds]", 0, cur⟩
  else if cmd = "screen" then
    ⟨"Screen version 4.08.00 (GNU) 05-Feb-20\n\nCopyright (c) 2018-2020 Alexander Naumov, Amadeusz Slawinski\nCopyright (c) 2015-2017 Juergen Weigert, Alexander Naumov, Amadeusz Slawinski\nCopyright (c) 2010-2014 Juergen Weigert, Sadrul Habib Chowdhury\n\nUse \x27screen -S session_name\x27 to create a new session", 0, cur⟩
  else if cmd = "tmux" then
    ⟨"tmux 3.1c\n\nUsage: tmux [-2CluvV] [-c shell-command] [-f file] [-L socket-name]\n            [-S socket-path] [command [flags]]\n\nUse \x27tmux new -s session\x27 to create a new session", 0, cur⟩
  else if cmd = "xargs" then
    if args.length < 2 then ⟨"xargs: missing command", 1, cur⟩
    else ⟨"xargs: executing command with piped input", 0, cur⟩
  else if cmd = "tee" then
    let fileName := getArg args 1
    if !truthy fileName then ⟨"tee: missing file operand", 1, cur⟩
    else ⟨"Output written to both stdout and \x27" ++ interp fileName ++ "\x27", 0, cur⟩
  else if cmd = "help" then ⟨helpText, 0, cur⟩
  else if cmd = "nc" then
    let host := getArg args 1
    let port := getArg args 2
    if args.contains "-l" then
      ⟨"Listening on port " ++ orElseStr port "8080", 0, cur⟩
    else if !truthy host || !truthy port then ⟨"nc: missing host or port", 1, cur⟩
    else ⟨"Connected to " ++ interp host ++ " port " ++ interp port, 0, cur⟩
  else if cmd = "telnet" then
    let host := getArg args 1
    let _port := orElseStr (getArg args 2) "23"
    if !truthy host then ⟨"telnet: missing host", 1, cur⟩
    else
      ⟨"Trying " ++ interp host ++ "...\nConnected to " ++ interp host
        ++ ".\nEscape character is \x27^]\x27.", 0, cur⟩
  else if cmd = "ssh" then
    let target := getArg args 1
    if !truthy target then ⟨"ssh: missing destination", 1, cur⟩
    else ⟨"Connecting to " ++ interp target ++ "...\nConnection established.", 0, cur⟩
  else if cmd = "scp" then
    let src := getArg args 1
    let dest := getArg args 2
    if !truthy src || !truthy dest then ⟨"scp: missing source or destination", 1, cur⟩
    else ⟨interp src ++ " -> " ++ interp dest ++ "\nFile transfer completed.", 0, cur⟩
  else if cmd = "rsync" then
    let src := getArg args 1
    let dest := getArg args 2
    if !truthy src || !truthy dest then ⟨"rsync: missing source or destination", 1, cur⟩
    else
      ⟨"sending incremental file list\n" ++ interp src
        ++ "\n\nsent 1,024 bytes  received 35 bytes  2,118.00 bytes/sec\ntotal size is 1,024  speedup is 0.97", 0, cur⟩
  else if cmd = "arp" then
    if args.contains "-a" then
      ⟨"? (192.168.1.1) at aa:bb:cc:dd:ee:ff [ether] on eth0\n? (192.168.1.100) at 11:22:33:44:55:66 [ether] on eth0\n? (192.168.1.254) at ff:ee:dd:cc:bb:aa [ether] on eth0", 0, cur⟩
    else
      ⟨"Address                  HWtype  HWaddress           Flags Mask            Iface\n192.168.1.1              ether   aa:bb:cc:dd:ee:ff   C                     eth0\n192.168.1.254            ether   ff:ee:dd:cc:bb:aa   C                     eth0", 0, cur⟩
  else if cmd = "route" then
    if args.contains "-n" then
      ⟨"Kernel IP routing table\nDestination     Gateway         Genmask         Flags Metric Ref    Use Iface\n0.0.0.0         192.168.1.1     0.0.0.0         UG    100    0        0 eth0\n192.168.1.0     0.0.0.0         255.255.255.0   U     100    0        0 eth0", 0, cur⟩
    else
      ⟨"Kernel IP routing table\nDestination     Gateway         Genmask         Flags Metric Ref    Use Iface\ndefault         gateway         0.0.0.0         UG    100    0        0 eth0\n192.168.1.0     0.0.0.0         255.255.255.0   U     100    0        0 eth0", 0, cur⟩
  else if cmd = "ip" then
    if args.contains "addr" then
      ⟨"1: lo: <LOOPBACK,UP,LOWER_UP> mtu 65536 qdisc noqueue state UNKNOWN group default qlen 1000\n    link/loopback 00:00:00:00:00:00 brd 00:00:00:00:00:00\n    inet 127.0.0.1/8 scope host lo\n2: eth0: <BROADCAST,MULTICAST,UP,LOWER_UP> mtu 1500 qdisc pfifo_fast state UP group default qlen 1000\n    link/ether 11:22:33:44:55:66 brd ff:ff:ff:ff:ff:ff\n    inet 192.168.1.100/24 brd 192.168.1.255 scope global dynamic eth0", 0, cur⟩
    else if args.contains "route" then
      ⟨"default via 192.168.1.1 dev eth0 proto dhcp metric 100\n192.168.1.0/24 dev eth0 proto kernel scope link src 192.168.1.100 metric 100", 0, cur⟩
    else if args.contains "link" then
      ⟨"1: lo: <LOOPBACK,UP,LOWER_UP> mtu 65536 qdisc noqueue state UNKNOWN mode DEFAULT group default qlen 1000\n    link/loopback 00:00:00:00:00:00 brd 00:00:00:00:00:00\n2: eth0: <BROADCAST,MULTICAST,UP,LOWER_UP> mtu 1500 qdisc pfifo_fast state UP mode DEFAULT group default qlen 1000\n    link/ether 11:22:33:44:55:66 brd ff:ff:ff:ff:ff:ff", 0, cur⟩
    else ⟨"ip: missing command. Try \"ip addr\", \"ip route\", or \"ip link\"", 1, cur⟩
  else if cmd = "ifconfig" then
    let interfaceName := getArg args 1
    if truthy interfaceName then
      ⟨interp interfaceName
        ++ ": flags=4163<UP,BROADCAST,RUNNING,MULTICAST>  mtu 1500\n        inet 192.168.1.100  netmask 255.255.255.0  broadcast 192.168.1.255\n        ether 11:22:33:44:55:66  txqueuelen 1000  (Ethernet)\n        RX packets 12345  bytes 1234567 (1.2 MB)\n        TX packets 6789  bytes 987654 (987.6 KB)", 0, cur⟩
    else
      ⟨"eth0: flags=4163<UP,BROADCAST,RUNNING,MULTICAST>  mtu 1500\n        inet 192.168.1.100  netmask 255.255.255.0  broadcast 192.168.1.255\n        ether 11:22:33:44:55:66  txqueuelen 1000  (Ethernet)\n\nlo: flags=73<UP,LOOPBACK,RUNNING>  mtu 65536\n        inet 127.0.0.1  netmask 255.0.0.0\n        loop  txqueuelen 1000  (Local Loopback)", 0, cur⟩
  else if cmd = "iwconfig" then
    ⟨"wlan0     IEEE 802.11  ESSID:\"MyNetwork\"\n          Mode:Managed  Frequency:2.437 GHz  Access Point: AA:BB:CC:DD:EE:FF\n          Bit Rate=54 Mb/s   Tx-Power=20 dBm\n          Retry short limit:7   RTS thr:off   Fragment thr:off\n          Power Management:on\n          Link Quality=70/70  Signal level=-40 dBm\n          Rx invalid nwid:0  Rx invalid crypt:0  Rx invalid frag:0", 0, cur⟩
  else if cmd = "host" then
    let hostname := getArg args 1
    if !truthy hostname then ⟨"host: missing hostname", 1, cur⟩
    else
      ⟨interp hostname ++ " has address 142.250.191.14\n" ++ interp hostname
        ++ " has IPv6 address 2607:f8b0:4004:c1b::65\n" ++ interp hostname
        ++ " mail is handled by 10 smtp." ++ interp hostname ++ ".", 0, cur⟩
  else if cmd = "tracepath" then
    let host := orElseStr (getArg args 1) "google.com"
    ⟨"tracepath to " ++ host
      ++ " (142.250.191.14), 30 hops max\n 1:  192.168.1.1                                           1.234ms\n 2:  10.0.0.1                                             5.678ms\n 3:  203.0.113.1                                         12.345ms\n 4:  no reply\n 5:  142.250.191.14                                      15.678ms reached", 0, cur⟩
  else if cmd = "lsusb" then
    if args.contains "-v" then
      ⟨"Bus 001 Device 001: ID 1d6b:0002 Linux Foundation 2.0 root hub\nDevice Descriptor:\n  bLength                18\n  bDescriptorType         1\n  bcdUSB               2.00", 0, cur⟩
    else
      ⟨"Bus 001 Device 001: ID 1d6b:0002 Linux Foundation 2.0 root hub\nBus 001 Device 002: ID 8087:0024 Intel Corp. Integrated Rate Matching Hub\nBus 001 Device 003: ID 046d:c52b Logitech, Inc. Unifying Receiver", 0, cur⟩
  else if cmd = "lspci" then
    if args.contains "-v" then
      ⟨"00:00.0 Host bridge: Intel Corporation Device 1234\n\tSubsystem: Intel Corporation Device 5678\n\tFlags: bus master, fast devsel, latency 0", 0, cur⟩
    else
      ⟨"00:00.0 Host bridge: Intel Corporation Device 1234\n00:02.0 VGA compatible controller: Intel Corporation Device 5678\n00:1f.0 ISA bridge: Intel Corporation Device 9abc", 0, cur⟩
  else if cmd = "mount" then
    if args.length = 1 then
      ⟨"/dev/sda1 on / type ext4 (rw,relatime)\n/dev/sda2 on /home type ext4 (rw,relatime)\ntmpfs on /tmp type tmpfs (rw,nosuid,nodev)\nproc on /proc type proc (rw,nosuid,nodev,noexec,relatime)", 0, cur⟩
    else
      ⟨"Mounted " ++ interp (getArg args 1) ++ " on " ++ interp (getArg args 2), 0, cur⟩
  else if cmd = "umount" then
    let mountpoint := getArg args 1
    if !truthy mountpoint then ⟨"umount: missing mountpoint", 1, cur⟩
    else ⟨"Unmounted " ++ interp mountpoint, 0, cur⟩
  else if cmd = "nohup" then
    let nohupCmd := joinSep " " (args.drop 1)
    if nohupCmd.data.isEmpty then ⟨"nohup: missing command", 1, cur⟩
    else
      ⟨"nohup: ignoring input and appending output to \x27nohup.out\x27\n[1] 12345", 0, cur⟩
  else
    ⟨cmd ++ ": command not found\n\nTry \x27help\x27 to see available commands or ask the AI assistant for guidance!",
      127, cur⟩

/-- The `switch (cmd)` dispatch of `executeCommand`: from the raw command
line and the session state to `(output, exitCode, newDirectory)`.  The
switch matches the first token by exact, case-sensitive equality; the
translation keeps the source's case order.  No handler can raise in this
total model, so the source's `catch` branch is unreachable. -/
def runCommand (env : Env) (st : TerminalState) (command : String) : ExecResult :=
  let args := parseArgs command
  let cmd := args.headD ""
  let cur := st.currentDirectory
  if cmd = "ls" then
    let lsPath := orElseStr (getArg args 1) cur
    let items := vfsGet st.fileSystem lsPath
    if args.contains "-la" || args.contains "-l" then
      ⟨joinSep "\n" (items.map (lsLongLine env)), 0, cur⟩
    else
      ⟨joinSep "  " (items.map (·.name)), 0, cur⟩
  else if cmd = "pwd" then ⟨cur, 0, cur⟩
  else if cmd = "cd" then
    let nd := resolveCd cur (getArg args 1)
    if vfsHas st.fileSystem nd then ⟨"", 0, nd⟩
    else ⟨"cd: " ++ interp (getArg args 1) ++ ": No such file or directory", 1, cur⟩
  else if cmd = "cat" then
    let filename := getArg args 1
    if !truthy filename then ⟨"cat: missing file operand", 1, cur⟩
    else if filename = some "readme.txt" then ⟨readmeText, 0, cur⟩
    else if filename = some ".bashrc" then ⟨bashrcText, 0, cur⟩
    else ⟨"cat: " ++ interp filename ++ ": No such file or directory", 1, cur⟩
  else if cmd = "ping" then
    let host := orElseStr (getArg args 1) "google.com"
    let count : Int :=
      if args.contains "-c" then
        orElseInt (parseIntJS (interp (getArg args (idxOf args "-c" + 1)))) 4
      else 4
    ⟨"PING " ++ host ++ " (142.250.191.14): 56 data bytes\n"
      ++ joinSep "\n" ((List.range count.toNat).map (pingLine env))
      ++ "\n\n--- " ++ host ++ " ping statistics ---\n"
      ++ toString count ++ " packets transmitted, " ++ toString count
      ++ " packets received, 0.0% packet loss\nround-trip min/avg/max/stddev = 10.234/"
      ++ env.pingAvg ++ "/15.456/1.234 ms", 0, cur⟩
  else if cmd = "curl" then
    let _url := orElseStr (getArg args 1) "https://api.github.com"
    if args.contains "-I" then
      ⟨"HTTP/2 200 \nserver: GitHub.com\ndate: " ++ env.utcString
        ++ "\ncontent-type: application/json; charset=utf-8\ncontent-length: 2048\ncache-control: public, max-age=60, s-maxage=60\netag: \"abc123def456\"\nx-ratelimit-limit: 60\nx-ratelimit-remaining: 59", 0, cur⟩
    else
      ⟨"\x7b\n  \"current_user_url\": \"https://api.github.com/user\",\n  \"authorizations_url\": \"https://api.github.com/authorizations\",\n  \"repository_url\": \"https://api.github.com/repos/\x7bowner\x7d/\x7brepo\x7d\",\n  \"status\": \"success\",\n  \"message\": \"GitHub API v3\"\n\x7d", 0, cur⟩
  else if cmd = "wget" then
    let url := orElseStr (getArg args 1) "https://example.com/file.txt"
    ⟨"--" ++ env.isoString ++ "--  " ++ url
      ++ "\nResolving example.com (example.com)... 93.184.216.34\nConnecting to example.com (example.com)|93.184.216.34|:443... connected.\nHTTP request sent, awaiting response... 200 OK\nLength: 1024 (1.0K) [text/plain]\nSaving to: \x27file.txt\x27\n\nfile.txt            100%[===================>]   1.00K  --.-KB/s    in 0s      \n\n"
      ++ env.isoString ++ " (5.23 MB/s) - \x27file.txt\x27 saved [1024/1024]", 0, cur⟩
  else if cmd = "netstat" then
    if args.contains "-tuln" || args.contains "-an" then
      ⟨"Active Internet connections (only servers)\nProto Recv-Q Send-Q Local Address           Foreign Address         State      \ntcp        0      0 0.0.0.0:22              0.0.0.0:*               LISTEN     \ntcp        0      0 127.0.0.1:3000          0.0.0.0:*               LISTEN     \ntcp        0      0 0.0.0.0:80              0.0.0.0:*               LISTEN     \ntcp        0      0 0.0.0.0:443             0.0.0.0:*               LISTEN     \ntcp6       0      0 :::22                   :::*                    LISTEN     \ntcp6       0      0 ::1:3000                :::*                    LISTEN     \nudp        0      0 0.0.0.0:53              0.0.0.0:*                          \nudp        0      0 0.0.0.0:68              0.0.0.0:*                          ", 0, cur⟩
    else
      ⟨"Active Internet connections (w/o servers)\nProto Recv-Q Send-Q Local Address           Foreign Address         State      \ntcp        0      0 192.168.1.100:45678     142.250.191.14:443      ESTABLISHED\ntcp        0      0 192.168.1.100:45679     140.82.112.4:443        ESTABLISHED", 0, cur⟩
  else if cmd = "ss" then
    ⟨"Netid  State      Recv-Q Send-Q Local Address:Port               Peer Address:Port              \ntcp    LISTEN     0      128          *:22                       *:*                  \ntcp    LISTEN     0      128    127.0.0.1:3000                   *:*                  \ntcp    LISTEN     0      128          *:80                       *:*                  \ntcp    LISTEN     0      128          *:443                      *:*                  \ntcp    ESTAB      0      0      192.168.1.100:45678        142.250.191.14:443         \ntcp    ESTAB      0      0      192.168.1.100:45679        140.82.112.4:443           ", 0, cur⟩
  else if cmd = "traceroute" then
    let host := orElseStr (getArg args 1) "google.com"
    ⟨"traceroute to " ++ host
      ++ " (142.250.191.14), 30 hops max, 60 byte packets\n 1  192.168.1.1 (192.168.1.1)  1.234 ms  1.123 ms  1.456 ms\n 2  10.0.0.1 (10.0.0.1)  5.678 ms  5.432 ms  5.789 ms\n 3  203.0.113.1 (203.0.113.1)  12.345 ms  12.123 ms  12.456 ms\n 4  * * *\n 5  142.250.191.14 (142.250.191.14)  15.678 ms  15.432 ms  15.789 ms", 0, cur⟩
  else if cmd = "nslookup" then
    let host := orElseStr (getArg args 1) "google.com"
    ⟨"Server:\t\t8.8.8.8\nAddress:\t8.8.8.8#53\n\nNon-authoritative answer:\nName:\t"
      ++ host ++ "\nAddress: 142.250.191.14\nName:\t" ++ host
      ++ "\nAddress: 2607:f8b0:4004:c1b::65", 0, cur⟩
  else if cmd = "dig" then
    let host := orElseStr (getArg args 1) "google.com"
    ⟨"; <<>> DiG 9.16.1-Ubuntu <<>> " ++ host
      ++ "\n;; global options: +cmd\n;; Got answer:\n;; ->>HEADER<<- opcode: QUERY, status: NOERROR, id: 12345\n;; flags: qr rd ra; QUERY: 1, ANSWER: 1, AUTHORITY: 0, ADDITIONAL: 1\n\n;; OPT PSEUDOSECTION:\n; EDNS: version: 0, flags:; udp: 512\n;; QUESTION SECTION:\n;"
      ++ host ++ ".\t\t\tIN\tA\n\n;; ANSWER SECTION:\n" ++ host
      ++ ".\t\t300\tIN\tA\t142.250.191.14\n\n;; Query time: 23 msec\n;; SERVER: 8.8.8.8#53(8.8.8.8)\n;; WHEN: "
      ++ env.dateString ++ "\n;; MSG SIZE  rcvd: 55", 0, cur⟩
  else if cmd = "ps" then
    if args.contains "aux" then
      ⟨"USER       PID %CPU %MEM    VSZ   RSS TTY      STAT START   TIME COMMAND\nroot         1  0.0  0.1  225316  9876 ?        Ss   09:00   0:01 /sbin/init\nroot         2  0.0  0.0      0     0 ?        S    09:00   0:00 [kthreadd]\nuser      1234  0.5  2.1 1234567 87654 pts/0    Sl   09:30   0:05 ai-terminal\nuser      1235  0.1  0.5  123456  5432 pts/0    S    09:31   0:01 node server.js\nuser      1236  0.0  0.1   12345  1234 pts/0    R+   09:32   0:00 ps aux", 0, cur⟩
    else
      ⟨"  PID TTY          TIME CMD\n 1234 pts/0    00:00:05 ai-terminal\n 1235 pts/0    00:00:01 node\n 1236 pts/0    00:00:00 ps", 0, cur⟩
  else if cmd = "df" then
    if args.contains "-h" then
      ⟨"Filesystem      Size  Used Avail Use% Mounted on\n/dev/sda1        20G  8.5G   11G  45% /\ntmpfs           2.0G     0  2.0G   0% /dev/shm\n/dev/sda2       100G   45G   50G  48% /home", 0, cur⟩
    else
      ⟨"Filesystem     1K-blocks    Used Available Use% Mounted on\n/dev/sda1       20971520 8912896  11534336  45% /\ntmpfs            2097152       0   2097152   0% /dev/shm\n/dev/sda2      104857600 47185920  52428800  48% /home", 0, cur⟩
  else if cmd = "du" then
    if args.contains "-sh" then
      ⟨"1.2G\tdocuments\n856M\tdownloads\n2.3G\tprojects\n45M\t.cache\n12K\t.bashrc", 0, cur⟩
    else
      ⟨"1234567\t./documents\n876543\t./downloads\n2345678\t./projects\n45678\t./.cache\n12\t./.bashrc", 0, cur⟩
  else if cmd = "free" then
    if args.contains "-h" then
      ⟨"              total        used        free      shared  buff/cache   available\nMem:           7.8G        2.1G        3.2G        156M        2.5G        5.4G\nSwap:          2.0G          0B        2.0G", 0, cur⟩
    else
      ⟨"              total        used        free      shared  buff/cache   available\nMem:        8165432     2156789     3287654      159876     2720989     5567123\nSwap:       2097152           0     2097152", 0, cur⟩
  else if cmd = "lsof" then
    let port :=
      if args.contains "-i" then orElseStr (getArg args (idxOf args "-i" + 1)) ":80"
      else ":80"
    ⟨"COMMAND  PID USER   FD   TYPE DEVICE SIZE/OFF NODE NAME\nnginx   1234 root    6u  IPv4  12345      0t0  TCP *"
      ++ port ++ " (LISTEN)\nnginx   1235 www     6u  IPv4  12345      0t0  TCP *"
      ++ port ++ " (LISTEN)", 0, cur⟩
  else if cmd = "whoami" then ⟨"user", 0, cur⟩
  else if cmd = "date" then ⟨env.dateString, 0, cur⟩
  else if cmd = "uname" then
    if args.contains "-a" then
      ⟨"Linux ai-terminal 5.15.0-ai #1 SMP x86_64 GNU/Linux", 0, cur⟩
    else ⟨"Linux", 0, cur⟩
  else if cmd = "lscpu" then
    ⟨"Architecture:                    x86_64\nCPU op-mode(s):                  32-bit, 64-bit\nByte Order:                      Little Endian\nCPU(s):                          4\nModel name:                      AI Terminal Processor\nCPU MHz:                         2400.000\nCache L1d:                       128 KiB\nCache L1i:                       128 KiB\nCache L2:                        1 MiB\nCache L3:                        8 MiB", 0, cur⟩
  else if cmd = "echo" then ⟨joinSep " " (args.drop 1), 0, cur⟩
  else if cmd = "find" then
    let path := orElseStr (getArg args 1) "."
    let _pat :=
      if args.contains "-name" then interp (getArg args (idxOf args "-name" + 1))
      else "*"
    ⟨path ++ "/documents/report.txt\n" ++ path ++ "/downloads/image.jpg\n"
      ++ path ++ "/projects/ai-terminal/README.md\n" ++ path
      ++ "/projects/web-app/index.html", 0, cur⟩
  else if cmd = "grep" then
    if args.contains "-r" then
      let pat := orElseStr (getArg args (idxOf args "-r" + 1)) "pattern"
      ⟨"./documents/report.txt:Found " ++ pat
        ++ " in line 15\n./projects/ai-terminal/README.md:" ++ pat
        ++ " appears in documentation\n./projects/web-app/index.html:HTML contains "
        ++ pat ++ " reference", 0, cur⟩
    else ⟨"grep: missing pattern", 1, cur⟩
  else if cmd = "clear" then ⟨"", 0, cur⟩
  else runCommandRest args cmd cur

/-- Function `executeCommand`: runs the dispatch, builds the `TerminalCommand`
record (id from the clock, `directory` the pre-execution directory) and
commits the new session state — history extended by the record, current
directory replaced by the handler's `newDirectory`, `isExecuting` reset. -/
def executeCommand (env : Env) (st : TerminalState) (command : String) :
    TerminalCommand × TerminalState :=
  let r := runCommand env st command
  let tc : TerminalCommand :=
    { id := env.nowId, command := command, output := r.output,
      timestamp := env.timestamp, exitCode := r.exitCode,
      directory := st.currentDirectory }
  (tc,
   { st with currentDirectory := r.newDirectory,
             history := st.history ++ [tc],
             isExecuting := false })

/-- Function `clearHistory`: empties the history, touches nothing else. -/
def clearHistory (st : TerminalState) : TerminalState := { st with history := [] }

/-- The session state created by `useTerminal` at session start. -/
def initialState : TerminalState :=
  { currentDirectory := "/home/user", history := [],
    fileSystem := mockFileSystem, isExecuting := false }

/-- A fixed clock / random source for concrete evaluations. -/
def env0 : Env :=
  { nowId := "0", timestamp := 0, localeDateString := "1/20/2024",
    utcString := "Sat, 20 Jan 2024 10:30:15 GMT",
    isoString := "2024-01-20T10:30:15.000Z",
    dateString := "Sat Jan 20 2024 10:30:15 GMT+0000",
    pingTime := fun _ => "12.345", pingAvg := "13.000" }

/-! ## General lemmas about the string and list helpers -/

theorem strEq_of_data : ∀ {s t : String}, s.data = t.data → s = t
  | ⟨_⟩, ⟨_⟩, h => congrArg String.mk h

theorem data_append (s t : String) : (s ++ t).data = s.data ++ t.data := by
  cases s; cases t; rfl

theorem findSome?_guard {α β : Type} (p : α → Bool) (g : α → β) :
    ∀ l : List α,
      (List.findSome? (fun a => if p a then some (g a) else none) l) =
        (List.find? p l).map g := by
  intro l
  induction l with
  | nil => rfl
  | cons a l ih =>
    by_cases h : p a
    · simp only [List.findSome?, List.find?, h, if_true]
      rfl
    · simp only [List.findSome?, List.find?, h, if_false, Bool.false_eq_true]
      simpa using ih

theorem findSome?_eq_some_mem {α β : Type} {f : α → Option β} {b : β} :
    ∀ {l : List α}, List.findSome? f l = some b → ∃ a, a ∈ l ∧ f a = some b := by
  intro l
  induction l with
  | nil => intro h; simp [List.findSome?] at h
  | cons a l ih =>
    intro h
    simp only [List.findSome?] at h
    cases hf : f a with
    | some c =>
      rw [hf] at h
      simp only [Option.some.injEq] at h
      exact ⟨a, List.mem_cons_self a l, by rw [hf, h]⟩
    | none =>
      rw [hf] at h
      simp only [] at h
      obtain ⟨x, hx, hfx⟩ := ih h
      exact ⟨x, List.mem_cons_of_mem a hx, hfx⟩

theorem trimList_app (p l : List Char)
    (hp : ∃ c cs, p = c :: cs ∧ isWsChar c = false)
    (hl : l ≠ []) (hlw : ∀ c ∈ l, isWsChar c = false) :
    trimList (p ++ l) = p ++ l := by
  obtain ⟨c, cs, hpe, hc⟩ := hp
  have h1 : (p ++ l).dropWhile isWsChar = p ++ l := by
    rw [hpe]
    simp only [List.cons_append, List.dropWhile_cons, hc, Bool.false_eq_true, if_false]
  have hrev : l.reverse ≠ [] := by
    intro h
    exact hl (List.reverse_eq_nil_iff.mp h)
  obtain ⟨d, ds, hde⟩ := List.exists_cons_of_ne_nil hrev
  have hd : isWsChar d = false := by
    apply hlw
    have : d ∈ l.reverse := by rw [hde]; exact List.mem_cons_self d ds
    exact List.mem_reverse.mp this
  have h2 : (p ++ l).reverse.dropWhile isWsChar = (p ++ l).reverse := by
    rw [List.reverse_append, hde]
    simp only [List.cons_append, List.dropWhile_cons, hd, Bool.false_eq_true, if_false]
  unfold trimList
  rw [h1, h2, List.reverse_reverse]

theorem splitCharAux_no_sep (sep : Char) :
    ∀ (l acc : List Char), (∀ c ∈ l, (c == sep) = false) →
      splitCharAux sep l acc = [String.mk (acc.reverse ++ l)] := by
  intro l
  induction l with
  | nil => intro acc _; simp [splitCharAux]
  | cons c cs ih =>
    intro acc h
    have hc : (c == sep) = false := h c (List.mem_cons_self c cs)
    have hcs : ∀ x ∈ cs, (x == sep) = false := fun x hx => h x (List.mem_cons_of_mem c hx)
    simp only [splitCharAux, hc, Bool.false_eq_true, if_false]
    rw [ih (c :: acc) hcs]
    simp

theorem splitCharAux_through (sep : Char) :
    ∀ (p l acc : List Char), (∀ c ∈ p, (c == sep) = false) →
      splitCharAux sep (p ++ sep :: l) acc =
        String.mk (acc.reverse ++ p) :: splitCharAux sep l [] := by
  intro p
  induction p with
  | nil =>
    intro l acc _
    simp [splitCharAux]
  | cons c cs ih =>
    intro l acc h
    have hc : (c == sep) = false := h c (List.mem_cons_self c cs)
    have hcs : ∀ x ∈ cs, (x == sep) = false := fun x hx => h x (List.mem_cons_of_mem c hx)
    simp only [List.cons_append, splitCharAux, hc, Bool.false_eq_true, if_false]
    rw [List.append_eq, ih l (c :: acc) hcs]
    simp

/-- A whitespace-free character is not a space. -/
theorem not_space_of_not_ws {c : Char} (h : isWsChar c = false) : (c == ' ') = false := by
  unfold isWsChar at h
  rcases Bool.or_eq_false_iff.mp h with ⟨h1, _⟩
  rcases Bool.or_eq_false_iff.mp h1 with ⟨h2, _⟩
  rcases Bool.or_eq_false_iff.mp h2 with ⟨h3, _⟩
  exact h3

/-- Tokenisation of `name ++ " " ++ f` (given via its literal `ns`,
`name` followed by one space): exactly the two tokens `[name, f]`,
provided `f` is non-empty and whitespace-free. -/
theorem parseArgs_pair (ns name f : String)
    (hns : ns.data = name.data ++ [' '])
    (hhead : ∃ c cs, name.data = c :: cs ∧ isWsChar c = false)
    (hnosep : ∀ c ∈ name.data, (c == ' ') = false)
    (hf : f.data ≠ []) (hfw : ∀ c ∈ f.data, isWsChar c = false) :
    parseArgs (ns ++ f) = [name, f] := by
  have hdata : (ns ++ f).data = name.data ++ ' ' :: f.data := by
    rw [data_append, hns, List.append_assoc]
    rfl
  have htrim : trimList ((ns ++ f).data) = name.data ++ ' ' :: f.data := by
    have hsplit : name.data ++ ' ' :: f.data = (name.data ++ [' ']) ++ f.data := by simp
    rw [hdata, hsplit]
    rw [trimList_app (name.data ++ [' ']) f.data ?_ hf hfw]
    obtain ⟨c, cs, he, hc⟩ := hhead
    exact ⟨c, cs ++ [' '], by simp [he], hc⟩
  unfold parseArgs splitStr strTrim
  rw [show (⟨trimList (ns ++ f).data⟩ : String).data = trimList (ns ++ f).data from rfl,
    htrim, splitCharAux_through ' ' name.data f.data [] hnosep,
    splitCharAux_no_sep ' ' f.data [] (fun c hc => not_space_of_not_ws (hfw c hc))]
  simp only [List.reverse_nil, List.nil_append]

/-! ## Claim C1 — the static phase's matching direction -/

/-- Modelled from the spec's words for claim C1, to be compared with the
source's `staticFind`: return the first suggestion whose pattern key is a
case-insensitive prefix of the input and is not identical to the input. -/
def staticFindSpecC1 (input : String) : Option String :=
  workflowPatterns.findSome? fun pv =>
    if startsWithStr input pv.1 && pv.1 != input then some pv.2 else none

/-- C1 (counterexample): at the already-normalised input `"fin"` no
pattern key is a prefix of the input, so the phase described by the claim
yields no match — but the source's static phase (which tests
`pattern.startsWith(input)`, the opposite direction) returns the `find`
suggestion, and so does the full predictor, exactly as the spec's own
example scenario 4 demands. -/
theorem C1_counterexample :
    staticFindSpecC1 "fin" = none ∧
    staticFind "fin" = some "find . -name \"*.txt\" -type f" ∧
    predictWorkflow "fin" [] = some "find . -name \"*.txt\" -type f" := by
  decide

/-- C1 (amended): the static phase returns the first suggestion whose
pattern key *extends* the input — the (case-normalised, trimmed) input is
a prefix of the key and the key is not identical to the input; if the
input is a prefix of no table key (other than a key equal to it), the
static phase yields no match. -/
theorem C1_static_phase (input : String) :
    staticFind input =
      (workflowPatterns.find? fun pv => startsWithStr pv.1 input && pv.1 != input).map
        Prod.snd := by
  unfold staticFind
  exact findSome?_guard _ _ _

/-! ## Claim C2 — prediction non-reflexivity -/

/-- No pattern-table entry's suggestion is a proper prefix of its own key,
so the static loop can never hand the input back. -/
theorem workflowPatterns_no_self :
    workflowPatterns.all
      (fun pv => !(startsWithStr pv.1 pv.2 && pv.1 != pv.2)) = true := by
  decide

/-- A successful static match never equals the input. -/
theorem staticFind_ne_input {input s : String} (h : staticFind input = some s) :
    s ≠ input := by
  unfold staticFind at h
  obtain ⟨pv, hmem, hpv⟩ := findSome?_eq_some_mem h
  by_cases hc : (startsWithStr pv.1 input && pv.1 != input) = true
  · rw [if_pos hc, Option.some.injEq] at hpv
    intro heq
    rw [heq] at hpv
    rw [← hpv] at hc
    have hall := List.all_eq_true.mp workflowPatterns_no_self pv hmem
    rw [hc] at hall
    exact absurd hall (by decide)
  · rw [if_neg hc] at hpv
    exact absurd hpv (by simp)

/-- The history-conditioned rules return the input itself only for their
three fixed unconditional suggestions. -/
theorem historyRules_ne_input (input lc : String)
    (h1 : input ≠ "traceroute google.com")
    (h2 : input ≠ "nslookup google.com")
    (h3 : input ≠ "grep -r \"pattern\" .") :
    historyRules input lc ≠ some input := by
  intro h
  unfold historyRules at h
  repeat' split at h
  all_goals first
    | (simp only [Option.some.injEq] at h; subst h; simp_all)
    | simp at h

/-- The predictor on a normalised input never returns that input, except
for the three fixed history-phase suggestions. -/
theorem predictCore_ne_input (input : String) (h : List TerminalCommand)
    (h1 : input ≠ "traceroute google.com")
    (h2 : input ≠ "nslookup google.com")
    (h3 : input ≠ "grep -r \"pattern\" .") :
    predictCore input h ≠ some input := by
  intro he
  unfold predictCore at he
  cases hs : staticFind input with
  | some s =>
    rw [hs] at he
    simp only [Option.some.injEq] at he
    exact staticFind_ne_input hs he
  | none =>
    rw [hs] at he
    cases hl : h.getLast? with
    | none => rw [hl] at he; simp at he
    | some last =>
      rw [hl] at he
      exact historyRules_ne_input input (strLower last.command) h1 h2 h3 he

/-- C2 (counterexample): with the previous command containing `ping` and
the input `"traceroute google.com"` (already lower-case and trimmed), no
static pattern matches and the network-troubleshooting rule returns the
input itself. -/
theorem C2_counterexample :
    predictWorkflow "traceroute google.com" [⟨"1", "ping", "", 0, 0, "/home/user"⟩]
      = some (strTrim (strLower "traceroute google.com")) := by
  decide

/-- C2 (amended): `predict(x, h)` never returns a value equal to `x`
(after the predictor's own case-normalisation and trimming of `x`),
except when the normalised `x` is one of the three fixed
history-conditioned suggestions — `traceroute google.com`,
`nslookup google.com`, `grep -r "pattern" .` — which the history phase
can return verbatim. -/
theorem C2_no_self_suggestion (x : String) (h : List TerminalCommand)
    (h1 : strTrim (strLower x) ≠ "traceroute google.com")
    (h2 : strTrim (strLower x) ≠ "nslookup google.com")
    (h3 : strTrim (strLower x) ≠ "grep -r \"pattern\" .") :
    predictWorkflow x h ≠ some (strTrim (strLower x)) :=
  predictCore_ne_input (strTrim (strLower x)) h h1 h2 h3

/-- Witness for C2: a concrete instance of the amended theorem. -/
theorem C2_no_self_suggestion_witness :
    predictWorkflow "ls" [] ≠ some (strTrim (strLower "ls")) :=
  C2_no_self_suggestion "ls" [] (by decide) (by decide) (by decide)

/-! ## Claim C8 — the git-status follow-up rule -/

/-- C8: when no static pattern matches, the history is non-empty, the most
recent record's command text (lower-cased) contains `git status`, and the
normalised input is exactly `"git"` or `"git "`, the predictor suggests
`git add .`. -/
theorem C8_git_status_rule (x : String) (h : List TerminalCommand)
    (r : TerminalCommand)
    (hstatic : staticFind (strTrim (strLower x)) = none)
    (hlast : h.getLast? = some r)
    (hinc : containsStr (strLower r.command) "git status" = true)
    (hin : strTrim (strLower x) = "git" ∨ strTrim (strLower x) = "git ") :
    predictWorkflow x h = some "git add ." := by
  unfold predictWorkflow predictCore
  rw [hstatic, hlast]
  rcases hin with hin | hin <;> rw [hin]
  · simp [historyRules, hinc, show startsWithStr "git" "git" = true from by decide]
  · simp [historyRules, hinc, show startsWithStr "git " "git" = true from by decide]

/-- Witness for C8: the spec's example scenario 5. -/
theorem C8_git_status_rule_witness :
    predictWorkflow "git" [⟨"1", "git status", "", 0, 0, "/home/user"⟩]
      = some "git add ." :=
  C8_git_status_rule "git" [⟨"1", "git status", "", 0, 0, "/home/user"⟩]
    ⟨"1", "git status", "", 0, 0, "/home/user"⟩
    (by decide) (by decide) (by decide) (Or.inl (by decide))

/-! ## Claim C9 — the predictor sees only the last command's text -/

/-- C9: the prediction depends on the history only through the command
text of its most recent record: two histories with the same last command
text (or both empty) yield the same suggestion for every input. -/
theorem C9_last_command_only (x : String) (h1 h2 : List TerminalCommand)
    (hl : h1.getLast?.map TerminalCommand.command
        = h2.getLast?.map TerminalCommand.command) :
    predictWorkflow x h1 = predictWorkflow x h2 := by
  unfold predictWorkflow predictCore
  cases hs : staticFind (strTrim (strLower x)) with
  | some s => rfl
  | none =>
    cases e1 : h1.getLast? with
    | none =>
      cases e2 : h2.getLast? with
      | none => rfl
      | some r2 => rw [e1, e2] at hl; simp at hl
    | some r1 =>
      cases e2 : h2.getLast? with
      | none => rw [e1, e2] at hl; simp at hl
      | some r2 =>
        rw [e1, e2] at hl
        simp at hl
        show historyRules (strTrim (strLower x)) (strLower r1.command)
          = historyRules (strTrim (strLower x)) (strLower r2.command)
        rw [hl]

/-- Witness for C9: two different histories sharing the last command
text produce the same suggestion. -/
theorem C9_last_command_only_witness :
    predictWorkflow "git" [⟨"1", "git status", "", 0, 0, "/home/user"⟩]
      = predictWorkflow "git"
          [⟨"7", "ls", "documents", 5, 0, "/"⟩,
           ⟨"8", "git status", "On branch main", 6, 0, "/home"⟩] :=
  C9_last_command_only "git"
    [⟨"1", "git status", "", 0, 0, "/home/user"⟩]
    [⟨"7", "ls", "documents", 5, 0, "/"⟩,
     ⟨"8", "git status", "On branch main", 6, 0, "/home"⟩]
    (by decide)

/-! ## Claim C5 — history append and clear -/

/-- C5: every submission that reaches the executor appends exactly one
record at the end of the history, leaving all earlier records unchanged
(so the length grows by exactly one); `clearHistory` resets the history
to length zero without emitting a record and leaves the current directory
untouched. -/
theorem C5_history_append (env : Env) (st : TerminalState) (command : String) :
    (executeCommand env st command).2.history
        = st.history ++ [(executeCommand env st command).1] ∧
    (executeCommand env st command).2.history.length = st.history.length + 1 ∧
    (clearHistory st).history = [] ∧
    (clearHistory st).currentDirectory = st.currentDirectory := by
  refine ⟨rfl, ?_, rfl, rfl⟩
  show (st.history ++ [(executeCommand env st command).1]).length = st.history.length + 1
  simp

/-! ## Claim C7 — determinism under an injected clock and random source -/

/-- C7: with the clock and random source fixed (injected through `Env`),
`executeCommand` and `predictWorkflow` are pure — identical inputs give
identical outputs, for every handler. -/
theorem C7_determinism (e1 e2 : Env) (s1 s2 : TerminalState) (c1 c2 x1 x2 : String)
    (h1 h2 : List TerminalCommand)
    (he : e1 = e2) (hs : s1 = s2) (hc : c1 = c2) (hx : x1 = x2) (hh : h1 = h2) :
    executeCommand e1 s1 c1 = executeCommand e2 s2 c2 ∧
    predictWorkflow x1 h1 = predictWorkflow x2 h2 := by
  subst he; subst hs; subst hc; subst hx; subst hh
  exact ⟨rfl, rfl⟩

/-- Witness for C7 at a concrete environment, state and inputs. -/
theorem C7_determinism_witness :
    executeCommand env0 initialState "pwd" = executeCommand env0 initialState "pwd" ∧
    predictWorkflow "fin" [] = predictWorkflow "fin" [] :=
  C7_determinism env0 env0 initialState initialState "pwd" "pwd" "fin" "fin" [] []
    rfl rfl rfl rfl rfl

/-! ## Claim C4 — cd target resolution and the directory invariant -/

/-- C4: `cd` resolves its target (no argument / `~` to the home directory,
`..` to the parent — staying at root when already there, a leading `/`
verbatim, anything else appended to the current directory); the resolved
path changes the directory with empty output and exit code 0 exactly when
it is a VFS key, otherwise the directory is left identical with a
"No such file or directory" output and exit code 1 — so after any `cd`
the current directory is a valid VFS key whenever it was one before. -/
theorem C4_cd_resolution (env : Env) (st : TerminalState) (t : String)
    (ht : t.data ≠ []) (htw : ∀ c ∈ t.data, isWsChar c = false) :
    (resolveCd st.currentDirectory none = "/home/user") ∧
    (resolveCd st.currentDirectory (some "~") = "/home/user") ∧
    (resolveCd st.currentDirectory (some "..") =
      "/" ++ joinSep "/"
        (((splitStr '/' st.currentDirectory).filter (fun s => !s.isEmpty)).dropLast)) ∧
    (t ≠ "~" → t ≠ ".." → startsWithStr t "/" = true →
      resolveCd st.currentDirectory (some t) = t) ∧
    (t ≠ "~" → t ≠ ".." → startsWithStr t "/" = false →
      resolveCd st.currentDirectory (some t) =
        (if st.currentDirectory = "/" then "/" ++ t
         else st.currentDirectory ++ "/" ++ t)) ∧
    (runCommand env st ("cd " ++ t) =
      if vfsHas st.fileSystem (resolveCd st.currentDirectory (some t)) = true then
        ⟨"", 0, resolveCd st.currentDirectory (some t)⟩
      else ⟨"cd: " ++ t ++ ": No such file or directory", 1, st.currentDirectory⟩) ∧
    (runCommand env st "cd" =
      if vfsHas st.fileSystem "/home/user" = true then ⟨"", 0, "/home/user"⟩
      else ⟨"cd: undefined: No such file or directory", 1, st.currentDirectory⟩) ∧
    (vfsHas st.fileSystem st.currentDirectory = true →
      vfsHas st.fileSystem (runCommand env st ("cd " ++ t)).newDirectory = true) := by
  have hemp : t.data.isEmpty = false := by
    cases hd : t.data with
    | nil => exact absurd hd ht
    | cons c cs => rfl
  have hargs : parseArgs ("cd " ++ t) = ["cd", t] :=
    parseArgs_pair "cd " "cd" t rfl ⟨'c', ['d'], rfl, rfl⟩ (by decide) ht htw
  have htr : truthy (some t) = true := by simp [truthy, hemp]
  have hrun : runCommand env st ("cd " ++ t) =
      if vfsHas st.fileSystem (resolveCd st.currentDirectory (some t)) = true then
        ⟨"", 0, resolveCd st.currentDirectory (some t)⟩
      else ⟨"cd: " ++ t ++ ": No such file or directory", 1, st.currentDirectory⟩ := by
    simp [runCommand, hargs, getArg, interp]
  refine ⟨rfl, rfl, rfl, ?_, ?_, hrun, rfl, ?_⟩
  · intro h1 h2 hsw
    unfold resolveCd
    rw [if_neg (by simp [htr, h1]), if_neg (by simp [h2])]
    simp only [interp, hsw, if_true]
  · intro h1 h2 hsw
    unfold resolveCd
    rw [if_neg (by simp [htr, h1]), if_neg (by simp [h2])]
    simp only [interp, hsw, Bool.false_eq_true, if_false]
  · intro hv
    rw [hrun]
    by_cases hres : vfsHas st.fileSystem (resolveCd st.currentDirectory (some t)) = true
    · rw [if_pos hres]; exact hres
    · rw [if_neg hres]; exact hv

/-- Witness for C4 at the seeded session and the target `projects`. -/
theorem C4_cd_resolution_witness :
    (resolveCd initialState.currentDirectory none = "/home/user") ∧
    (resolveCd initialState.currentDirectory (some "~") = "/home/user") ∧
    (resolveCd initialState.currentDirectory (some "..") =
      "/" ++ joinSep "/"
        (((splitStr '/' initialState.currentDirectory).filter
          (fun s => !s.isEmpty)).dropLast)) ∧
    ("projects" ≠ "~" → "projects" ≠ ".." → startsWithStr "projects" "/" = true →
      resolveCd initialState.currentDirectory (some "projects") = "projects") ∧
    ("projects" ≠ "~" → "projects" ≠ ".." → startsWithStr "projects" "/" = false →
      resolveCd initialState.currentDirectory (some "projects") =
        (if initialState.currentDirectory = "/" then "/" ++ "projects"
         else initialState.currentDirectory ++ "/" ++ "projects")) ∧
    (runCommand env0 initialState ("cd " ++ "projects") =
      if vfsHas initialState.fileSystem
          (resolveCd initialState.currentDirectory (some "projects")) = true then
        ⟨"", 0, resolveCd initialState.currentDirectory (some "projects")⟩
      else ⟨"cd: " ++ "projects" ++ ": No such file or directory", 1,
        initialState.currentDirectory⟩) ∧
    (runCommand env0 initialState "cd" =
      if vfsHas initialState.fileSystem "/home/user" = true then
        ⟨"", 0, "/home/user"⟩
      else ⟨"cd: undefined: No such file or directory", 1,
        initialState.currentDirectory⟩) ∧
    (vfsHas initialState.fileSystem initialState.currentDirectory = true →
      vfsHas initialState.fileSystem
        (runCommand env0 initialState ("cd " ++ "projects")).newDirectory = true) :=
  C4_cd_resolution env0 initialState "projects" (by decide) (by decide)

/-! ## Claim C3 — the content commands' recognised files -/

/-- C3 (counterexample): `tail` serves content (exit code 0) for
`/var/log/syslog`, a file that is neither the readme nor the dotfile, and
refuses the dotfile that `cat` accepts — so content recognition is not
"the same two fixed files" across the eight content commands. -/
theorem C3_counterexample :
    (runCommand env0 initialState "tail /var/log/syslog").exitCode = 0 ∧
    runCommand env0 initialState "head .bashrc" =
      ⟨"head: .bashrc: No such file or directory", 1, "/home/user"⟩ ∧
    runCommand env0 initialState "tail readme.txt" =
      ⟨"tail: readme.txt: No such file or directory", 1, "/home/user"⟩ := by
  decide

/-- C3 (amended): each content command recognises its own fixed file set —
`cat`: the readme and the dotfile; `head`, `less`, `more`, `wc`, `stat`:
only the readme; `file`: the readme and `script.sh`; `tail`: only
`/var/log/syslog` (or any invocation carrying `-f`).  Any other
(whitespace-free) filename yields that command's "No such file or
directory" error with exit code 1, and a missing filename argument yields
its "missing file operand" error with exit code 1. -/
theorem C3_content_commands (env : Env) (st : TerminalState) (f : String)
    (ht : f.data ≠ []) (htw : ∀ c ∈ f.data, isWsChar c = false) :
    (f ≠ "readme.txt" → f ≠ ".bashrc" →
      runCommand env st ("cat " ++ f) =
        ⟨"cat: " ++ f ++ ": No such file or directory", 1, st.currentDirectory⟩) ∧
    (f ≠ "readme.txt" →
      runCommand env st ("head " ++ f) =
        ⟨"head: " ++ f ++ ": No such file or directory", 1, st.currentDirectory⟩) ∧
    (f ≠ "/var/log/syslog" → f ≠ "-f" →
      runCommand env st ("tail " ++ f) =
        ⟨"tail: " ++ f ++ ": No such file or directory", 1, st.currentDirectory⟩) ∧
    (f ≠ "readme.txt" →
      runCommand env st ("less " ++ f) =
        ⟨"less: " ++ f ++ ": No such file or directory", 1, st.currentDirectory⟩) ∧
    (f ≠ "readme.txt" →
      runCommand env st ("more " ++ f) =
        ⟨"more: " ++ f ++ ": No such file or directory", 1, st.currentDirectory⟩) ∧
    (f ≠ "readme.txt" →
      runCommand env st ("wc " ++ f) =
        ⟨"wc: " ++ f ++ ": No such file or directory", 1, st.currentDirectory⟩) ∧
    (f ≠ "readme.txt" →
      runCommand env st ("stat " ++ f) =
        ⟨"stat: cannot stat \x27" ++ f ++ "\x27: No such file or directory", 1,
          st.currentDirectory⟩) ∧
    (f ≠ "readme.txt" → f ≠ "script.sh" →
      runCommand env st ("file " ++ f) =
        ⟨f ++ ": cannot open (No such file or directory)", 1, st.currentDirectory⟩) ∧
    (runCommand env st "cat" = ⟨"cat: missing file operand", 1, st.currentDirectory⟩) ∧
    (runCommand env st "head" = ⟨"head: missing file operand", 1, st.currentDirectory⟩) ∧
    (runCommand env st "tail" = ⟨"tail: missing file operand", 1, st.currentDirectory⟩) ∧
    (runCommand env st "less" = ⟨"less: missing file operand", 1, st.currentDirectory⟩) ∧
    (runCommand env st "more" = ⟨"more: missing file operand", 1, st.currentDirectory⟩) ∧
    (runCommand env st "wc" = ⟨"wc: missing file operand", 1, st.currentDirectory⟩) ∧
    (runCommand env st "stat" = ⟨"stat: missing file operand", 1, st.currentDirectory⟩) ∧
    (runCommand env st "file" = ⟨"file: missing file operand", 1, st.currentDirectory⟩) ∧
    ((runCommand env st "cat readme.txt").exitCode = 0) ∧
    ((runCommand env st "cat .bashrc").exitCode = 0) ∧
    ((runCommand env st "head readme.txt").exitCode = 0) ∧
    ((runCommand env st "tail /var/log/syslog").exitCode = 0) ∧
    ((runCommand env st "less readme.txt").exitCode = 0) ∧
    ((runCommand env st "more readme.txt").exitCode = 0) ∧
    ((runCommand env st "wc readme.txt").exitCode = 0) ∧
    ((runCommand env st "stat readme.txt").exitCode = 0) ∧
    ((runCommand env st "file readme.txt").exitCode = 0) ∧
    ((runCommand env st "file script.sh").exitCode = 0) := by
  have hemp : f.data.isEmpty = false := by
    cases hd : f.data with
    | nil => exact absurd hd ht
    | cons c cs => rfl
  have hcat : parseArgs ("cat " ++ f) = ["cat", f] :=
    parseArgs_pair "cat " "cat" f rfl ⟨'c', ['a', 't'], rfl, rfl⟩ (by decide) ht htw
  have hhead : parseArgs ("head " ++ f) = ["head", f] :=
    parseArgs_pair "head " "head" f rfl ⟨'h', ['e', 'a', 'd'], rfl, rfl⟩ (by decide) ht htw
  have htail : parseArgs ("tail " ++ f) = ["tail", f] :=
    parseArgs_pair "tail " "tail" f rfl ⟨'t', ['a', 'i', 'l'], rfl, rfl⟩ (by decide) ht htw
  have hless : parseArgs ("less " ++ f) = ["less", f] :=
    parseArgs_pair "less " "less" f rfl ⟨'l', ['e', 's', 's'], rfl, rfl⟩ (by decide) ht htw
  have hmore : parseArgs ("more " ++ f) = ["more", f] :=
    parseArgs_pair "more " "more" f rfl ⟨'m', ['o', 'r', 'e'], rfl, rfl⟩ (by decide) ht htw
  have hwc : parseArgs ("wc " ++ f) = ["wc", f] :=
    parseArgs_pair "wc " "wc" f rfl ⟨'w', ['c'], rfl, rfl⟩ (by decide) ht htw
  have hstat : parseArgs ("stat " ++ f) = ["stat", f] :=
    parseArgs_pair "stat " "stat" f rfl ⟨'s', ['t', 'a', 't'], rfl, rfl⟩ (by decide) ht htw
  have hfile : parseArgs ("file " ++ f) = ["file", f] :=
    parseArgs_pair "file " "file" f rfl ⟨'f', ['i', 'l', 'e'], rfl, rfl⟩ (by decide) ht htw
  refine ⟨?_, ?_, ?_, ?_, ?_, ?_, ?_, ?_,
    rfl, rfl, rfl, rfl, rfl, rfl, rfl, rfl,
    rfl, rfl, rfl, rfl, rfl, rfl, rfl, rfl, rfl, rfl⟩
  · intro h1 h2
    simp [runCommand, hcat, getArg, truthy, hemp, interp, h1, h2]
  · intro h1
    simp [runCommand, runCommandRest, hhead, getArg, truthy, hemp, interp, h1]
  · intro h1 h2
    simp [runCommand, runCommandRest, htail, getArg, truthy, hemp, interp, h1, h2,
      Ne.symm h2, List.contains]
  · intro h1
    simp [runCommand, runCommandRest, hless, getArg, truthy, hemp, interp, h1]
  · intro h1
    simp [runCommand, runCommandRest, hmore, getArg, truthy, hemp, interp, h1]
  · intro h1
    simp [runCommand, runCommandRest, hwc, getArg, truthy, hemp, interp, h1]
  · intro h1
    simp [runCommand, runCommandRest, hstat, getArg, truthy, hemp, interp, h1]
  · intro h1 h2
    simp [runCommand, runCommandRest, hfile, getArg, truthy, hemp, interp, h1, h2]

/-- Witness for C3 at the filename `notes.md`, which none of the content
commands recognise. -/
theorem C3_content_commands_witness :
    runCommand env0 initialState "cat notes.md" =
      ⟨"cat: notes.md: No such file or directory", 1, "/home/user"⟩ ∧
    runCommand env0 initialState "stat notes.md" =
      ⟨"stat: cannot stat \x27notes.md\x27: No such file or directory", 1,
        "/home/user"⟩ ∧
    runCommand env0 initialState "wc" =
      ⟨"wc: missing file operand", 1, "/home/user"⟩ := by
  have h := C3_content_commands env0 initialState "notes.md" (by decide) (by decide)
  obtain ⟨hc, _, _, _, _, hw, hs, _, _, _, _, _, _, hwc, _⟩ := h
  exact ⟨hc (by decide) (by decide), hs (by decide), hwc⟩

/-! ## Claim C6 — unknown commands -/

/-- The exact set of names carrying a handler case, in switch order. -/
def handledNames : List String :=
  ["ls", "pwd", "cd", "cat", "ping", "curl", "wget", "netstat", "ss",
   "traceroute", "nslookup", "dig", "ps", "df", "du", "free", "lsof",
   "whoami", "date", "uname", "lscpu", "echo", "find", "grep", "clear",
   "mkdir", "rmdir", "rm", "cp", "mv", "touch", "ln", "which", "whereis",
   "locate", "less", "more", "head", "tail", "wc", "sort", "uniq", "cut",
   "tr", "sed", "awk", "kill", "killall", "pgrep", "pkill", "jobs", "bg",
   "fg", "uptime", "who", "w", "last", "id", "history", "alias",
   "unalias", "type", "file", "stat", "basename", "dirname", "cal",
   "gzip", "gunzip", "zip", "chgrp", "umask", "watch", "screen", "tmux",
   "xargs", "tee", "help", "nc", "telnet", "ssh", "scp", "rsync", "arp",
   "route", "ip", "ifconfig", "iwconfig", "host", "tracepath", "lsusb",
   "lspci", "mount", "umount", "nohup"]

/-- C6: a first token matching no handler case (by exact, case-sensitive
equality) falls to the default case: exit code 127 with a
"command not found" output that points at `help`. -/
theorem C6_unknown_command (env : Env) (st : TerminalState) (command : String)
    (h : (parseArgs command).headD "" ∉ handledNames) :
    runCommand env st command =
      ⟨(parseArgs command).headD ""
        ++ ": command not found\n\nTry \x27help\x27 to see available commands or ask the AI assistant for guidance!",
        127, st.currentDirectory⟩ := by
  have hne : ∀ s, s ∈ handledNames → ¬((parseArgs command).headD "" = s) :=
    fun s hs e => h (by rw [e]; exact hs)
  simp only [runCommand, runCommandRest]
  rw [if_neg (hne "ls" (by decide)),
    if_neg (hne "pwd" (by decide)),
    if_neg (hne "cd" (by decide)),
    if_neg (hne "cat" (by decide)),
    if_neg (hne "ping" (by decide)),
    if_neg (hne "curl" (by decide))]
  rw [if_neg (hne "wget" (by decide)),
    if_neg (hne "netstat" (by decide)),
    if_neg (hne "ss" (by decide)),
    if_neg (hne "traceroute" (by decide)),
    if_neg (hne "nslookup" (by decide)),
    if_neg (hne "dig" (by decide))]
  rw [if_neg (hne "ps" (by decide)),
    if_neg (hne "df" (by decide)),
    if_neg (hne "du" (by decide)),
    if_neg (hne "free" (by decide)),
    if_neg (hne "lsof" (by decide)),
    if_neg (hne "whoami" (by decide))]
  rw [if_neg (hne "date" (by decide)),
    if_neg (hne "uname" (by decide)),
    if_neg (hne "lscpu" (by decide)),
    if_neg (hne "echo" (by decide)),
    if_neg (hne "find" (by decide)),
    if_neg (hne "grep" (by decide))]
  rw [if_neg (hne "clear" (by decide)),
    if_neg (hne "mkdir" (by decide)),
    if_neg (hne "rmdir" (by decide)),
    if_neg (hne "rm" (by decide)),
    if_neg (hne "cp" (by decide)),
    if_neg (hne "mv" (by decide))]
  rw [if_neg (hne "touch" (by decide)),
    if_neg (hne "ln" (by decide)),
    if_neg (hne "which" (by decide)),
    if_neg (hne "whereis" (by decide)),
    if_neg (hne "locate" (by decide)),
    if_neg (not_or.mpr ⟨hne "less" (by decide), hne "more" (by decide)⟩)]
  rw [if_neg (hne "head" (by decide)),
    if_neg (hne "tail" (by decide)),
    if_neg (hne "wc" (by decide)),
    if_neg (hne "sort" (by decide)),
    if_neg (hne "uniq" (by decide)),
    if_neg (hne "cut" (by decide))]
  rw [if_neg (hne "tr" (by decide)),
    if_neg (hne "sed" (by decide)),
    if_neg (hne "awk" (by decide)),
    if_neg (hne "kill" (by decide)),
    if_neg (hne "killall" (by decide)),
    if_neg (hne "pgrep" (by decide))]
  rw [if_neg (hne "pkill" (by decide)),
    if_neg (hne "jobs" (by decide)),
    if_neg (hne "bg" (by decide)),
    if_neg (hne "fg" (by decide)),
    if_neg (hne "uptime" (by decide)),
    if_neg (hne "who" (by decide))]
  rw [if_neg (hne "w" (by decide)),
    if_neg (hne "last" (by decide)),
    if_neg (hne "id" (by decide)),
    if_neg (hne "history" (by decide)),
    if_neg (hne "alias" (by decide)),
    if_neg (hne "unalias" (by decide))]
  rw [if_neg (hne "type" (by decide)),
    if_neg (hne "file" (by decide)),
    if_neg (hne "stat" (by decide)),
    if_neg (hne "basename" (by decide)),
    if_neg (hne "dirname" (by decide)),
    if_neg (hne "cal" (by decide))]
  rw [if_neg (hne "gzip" (by decide)),
    if_neg (hne "gunzip" (by decide)),
    if_neg (hne "zip" (by decide)),
    if_neg (hne "chgrp" (by decide)),
    if_neg (hne "umask" (by decide)),
    if_neg (hne "watch" (by decide))]
  rw [if_neg (hne "screen" (by decide)),
    if_neg (hne "tmux" (by decide)),
    if_neg (hne "xargs" (by decide)),
    if_neg (hne "tee" (by decide)),
    if_neg (hne "help" (by decide)),
    if_neg (hne "nc" (by decide))]
  rw [if_neg (hne "telnet" (by decide)),
    if_neg (hne "ssh" (by decide)),
    if_neg (hne "scp" (by decide)),
    if_neg (hne "rsync" (by decide)),
    if_neg (hne "arp" (by decide)),
    if_neg (hne "route" (by decide))]
  rw [if_neg (hne "ip" (by decide)),
    if_neg (hne "ifconfig" (by decide)),
    if_neg (hne "iwconfig" (by decide)),
    if_neg (hne "host" (by decide)),
    if_neg (hne "tracepath" (by decide)),
    if_neg (hne "lsusb" (by decide))]
  rw [if_neg (hne "lspci" (by decide)),
    if_neg (hne "mount" (by decide)),
    if_neg (hne "umount" (by decide)),
    if_neg (hne "nohup" (by decide))]

/-- Witness for C6: the spec's example scenario 6. -/
theorem C6_unknown_command_witness :
    runCommand env0 initialState "unknowncmd" =
      ⟨"unknowncmd: command not found\n\nTry \x27help\x27 to see available commands or ask the AI assistant for guidance!",
        127, "/home/user"⟩ := by
  have h := C6_unknown_command env0 initialState "unknowncmd" (by decide)
  simpa using h

/-! ## Claim C10 — the executor's frame -/

set_option maxHeartbeats 4000000

/-- Only a successful `cd` can move the working directory: every other
handler (and a failed `cd`) hands back the pre-execution directory, and a
successful `cd` hands back a directory that is a VFS key. -/
theorem runCommand_newDirectory (env : Env) (st : TerminalState) (command : String) :
    (runCommand env st command).newDirectory = st.currentDirectory ∨
    ((parseArgs command).headD "" = "cd" ∧ (runCommand env st command).exitCode = 0 ∧
      vfsHas st.fileSystem ((runCommand env st command).newDirectory) = true) := by
  simp only [runCommand, runCommandRest]
  by_cases h1 : (parseArgs command).headD "" = "ls"
  · rw [if_pos h1]
    first | exact Or.inl rfl | (split_ifs <;> exact Or.inl rfl)
  rw [if_neg h1]
  by_cases h2 : (parseArgs command).headD "" = "pwd"
  · rw [if_pos h2]
    first | exact Or.inl rfl | (split_ifs <;> exact Or.inl rfl)
  rw [if_neg h2]
  by_cases h3 : (parseArgs command).headD "" = "cd"
  · rw [if_pos h3]
    by_cases hv : vfsHas st.fileSystem (resolveCd st.currentDirectory (getArg (parseArgs command) 1)) = true
    · rw [if_pos hv]; exact Or.inr ⟨h3, rfl, hv⟩
    · rw [if_neg hv]; exact Or.inl rfl
  rw [if_neg h3]
  by_cases h4 : (parseArgs command).headD "" = "cat"
  · rw [if_pos h4]
    first | exact Or.inl rfl | (split_ifs <;> exact Or.inl rfl)
  rw [if_neg h4]
  by_cases h5 : (parseArgs command).headD "" = "ping"
  · rw [if_pos h5]
    first | exact Or.inl rfl | (split_ifs <;> exact Or.inl rfl)
  rw [if_neg h5]
  by_cases h6 : (parseArgs command).headD "" = "curl"
  · rw [if_pos h6]
    first | exact Or.inl rfl | (split_ifs <;> exact Or.inl rfl)
  rw [if_neg h6]
  by_cases h7 : (parseArgs command).headD "" = "wget"
  · rw [if_pos h7]
    first | exact Or.inl rfl | (split_ifs <;> exact Or.inl rfl)
  rw [if_neg h7]
  by_cases h8 : (parseArgs command).headD "" = "netstat"
  · rw [if_pos h8]
    first | exact Or.inl rfl | (split_ifs <;> exact Or.inl rfl)
  rw [if_neg h8]
  by_cases h9 : (parseArgs command).headD "" = "ss"
  · rw [if_pos h9]
    first | exact Or.inl rfl | (split_ifs <;> exact Or.inl rfl)
  rw [if_neg h9]
  by_cases h10 : (parseArgs command).headD "" = "traceroute"
  · rw [if_pos h10]
    first | exact Or.inl rfl | (split_ifs <;> exact Or.inl rfl)
  rw [if_neg h10]
  by_cases h11 : (parseArgs command).headD "" = "nslookup"
  · rw [if_pos h11]
    first | exact Or.inl rfl | (split_ifs <;> exact Or.inl rfl)
  rw [if_neg h11]
  by_cases h12 : (parseArgs command).headD "" = "dig"
  · rw [if_pos h12]
    first | exact Or.inl rfl | (split_ifs <;> exact Or.inl rfl)
  rw [if_neg h12]
  by_cases h13 : (parseArgs command).headD "" = "ps"
  · rw [if_pos h13]
    first | exact Or.inl rfl | (split_ifs <;> exact Or.inl rfl)
  rw [if_neg h13]
  by_cases h14 : (parseArgs command).headD "" = "df"
  · rw [if_pos h14]
    first | exact Or.inl rfl | (split_ifs <;> exact Or.inl rfl)
  rw [if_neg h14]
  by_cases h15 : (parseArgs command).headD "" = "du"
  · rw [if_pos h15]
    first | exact Or.inl rfl | (split_ifs <;> exact Or.inl rfl)
  rw [if_neg h15]
  by_cases h16 : (parseArgs command).headD "" = "free"
  · rw [if_pos h16]
    first | exact Or.inl rfl | (split_ifs <;> exact Or.inl rfl)
  rw [if_neg h16]
  by_cases h17 : (parseArgs command).headD "" = "lsof"
  · rw [if_pos h17]
    first | exact Or.inl rfl | (split_ifs <;> exact Or.inl rfl)
  rw [if_neg h17]
  by_cases h18 : (parseArgs command).headD "" = "whoami"
  · rw [if_pos h18]
    first | exact Or.inl rfl | (split_ifs <;> exact Or.inl rfl)
  rw [if_neg h18]
  by_cases h19 : (parseArgs command).headD "" = "date"
  · rw [if_pos h19]
    first | exact Or.inl rfl | (split_ifs <;> exact Or.inl rfl)
  rw [if_neg h19]
  by_cases h20 : (parseArgs command).headD "" = "uname"
  · rw [if_pos h20]
    first | exact Or.inl rfl | (split_ifs <;> exact Or.inl rfl)
  rw [if_neg h20]
  by_cases h21 : (parseArgs command).headD "" = "lscpu"
  · rw [if_pos h21]
    first | exact Or.inl rfl | (split_ifs <;> exact Or.inl rfl)
  rw [if_neg h21]
  by_cases h22 : (parseArgs command).headD "" = "echo"
  · rw [if_pos h22]
    first | exact Or.inl rfl | (split_ifs <;> exact Or.inl rfl)
  rw [if_neg h22]
  by_cases h23 : (parseArgs command).headD "" = "find"
  · rw [if_pos h23]
    first | exact Or.inl rfl | (split_ifs <;> exact Or.inl rfl)
  rw [if_neg h23]
  by_cases h24 : (parseArgs command).headD "" = "grep"
  · rw [if_pos h24]
    first | exact Or.inl rfl | (split_ifs <;> exact Or.inl rfl)
  rw [if_neg h24]
  by_cases h25 : (parseArgs command).headD "" = "clear"
  · rw [if_pos h25]
    first | exact Or.inl rfl | (split_ifs <;> exact Or.inl rfl)
  rw [if_neg h25]
  by_cases h26 : (parseArgs command).headD "" = "mkdir"
  · rw [if_pos h26]
    first | exact Or.inl rfl | (split_ifs <;> exact Or.inl rfl)
  rw [if_neg h26]
  by_cases h27 : (parseArgs command).headD "" = "rmdir"
  · rw [if_pos h27]
    first | exact Or.inl rfl | (split_ifs <;> exact Or.inl rfl)
  rw [if_neg h27]
  by_cases h28 : (parseArgs command).headD "" = "rm"
  · rw [if_pos h28]
    first | exact Or.inl rfl | (split_ifs <;> exact Or.inl rfl)
  rw [if_neg h28]
  by_cases h29 : (parseArgs command).headD "" = "cp"
  · rw [if_pos h29]
    first | exact Or.inl rfl | (split_ifs <;> exact Or.inl rfl)
  rw [if_neg h29]
  by_cases h30 : (parseArgs command).headD "" = "mv"
  · rw [if_pos h30]
    first | exact Or.inl rfl | (split_ifs <;> exact Or.inl rfl)
  rw [if_neg h30]
  by_cases h31 : (parseArgs command).headD "" = "touch"
  · rw [if_pos h31]
    first | exact Or.inl rfl | (split_ifs <;> exact Or.inl rfl)
  rw [if_neg h31]
  by_cases h32 : (parseArgs command).headD "" = "ln"
  · rw [if_pos h32]
    first | exact Or.inl rfl | (split_ifs <;> exact Or.inl rfl)
  rw [if_neg h32]
  by_cases h33 : (parseArgs command).headD "" = "which"
  · rw [if_pos h33]
    first | exact Or.inl rfl | (split_ifs <;> exact Or.inl rfl)
  rw [if_neg h33]
  by_cases h34 : (parseArgs command).headD "" = "whereis"
  · rw [if_pos h34]
    first | exact Or.inl rfl | (split_ifs <;> exact Or.inl rfl)
  rw [if_neg h34]
  by_cases h35 : (parseArgs command).headD "" = "locate"
  · rw [if_pos h35]
    first | exact Or.inl rfl | (split_ifs <;> exact Or.inl rfl)
  rw [if_neg h35]
  by_cases h36 : (parseArgs command).headD "" = "less" ∨ (parseArgs command).headD "" = "more"
  · rw [if_pos h36]
    first | exact Or.inl rfl | (split_ifs <;> exact Or.inl rfl)
  rw [if_neg h36]
  by_cases h37 : (parseArgs command).headD "" = "head"
  · rw [if_pos h37]
    first | exact Or.inl rfl | (split_ifs <;> exact Or.inl rfl)
  rw [if_neg h37]
  by_cases h38 : (parseArgs command).headD "" = "tail"
  · rw [if_pos h38]
    first | exact Or.inl rfl | (split_ifs <;> exact Or.inl rfl)
  rw [if_neg h38]
  by_cases h39 : (parseArgs command).headD "" = "wc"
  · rw [if_pos h39]
    first | exact Or.inl rfl | (split_ifs <;> exact Or.inl rfl)
  rw [if_neg h39]
  by_cases h40 : (parseArgs command).headD "" = "sort"
  · rw [if_pos h40]
    first | exact Or.inl rfl | (split_ifs <;> exact Or.inl rfl)
  rw [if_neg h40]
  by_cases h41 : (parseArgs command).headD "" = "uniq"
  · rw [if_pos h41]
    first | exact Or.inl rfl | (split_ifs <;> exact Or.inl rfl)
  rw [if_neg h41]
  by_cases h42 : (parseArgs command).headD "" = "cut"
  · rw [if_pos h42]
    first | exact Or.inl rfl | (split_ifs <;> exact Or.inl rfl)
  rw [if_neg h42]
  by_cases h43 : (parseArgs command).headD "" = "tr"
  · rw [if_pos h43]
    first | exact Or.inl rfl | (split_ifs <;> exact Or.inl rfl)
  rw [if_neg h43]
  by_cases h44 : (parseArgs command).headD "" = "sed"
  · rw [if_pos h44]
    first | exact Or.inl rfl | (split_ifs <;> exact Or.inl rfl)
  rw [if_neg h44]
  by_cases h45 : (parseArgs command).headD "" = "awk"
  · rw [if_pos h45]
    first | exact Or.inl rfl | (split_ifs <;> exact Or.inl rfl)
  rw [if_neg h45]
  by_cases h46 : (parseArgs command).headD "" = "kill"
  · rw [if_pos h46]
    first | exact Or.inl rfl | (split_ifs <;> exact Or.inl rfl)
  rw [if_neg h46]
  by_cases h47 : (parseArgs command).headD "" = "killall"
  · rw [if_pos h47]
    first | exact Or.inl rfl | (split_ifs <;> exact Or.inl rfl)
  rw [if_neg h47]
  by_cases h48 : (parseArgs command).headD "" = "pgrep"
  · rw [if_pos h48]
    first | exact Or.inl rfl | (split_ifs <;> exact Or.inl rfl)
  rw [if_neg h48]
  by_cases h49 : (parseArgs command).headD "" = "pkill"
  · rw [if_pos h49]
    first | exact Or.inl rfl | (split_ifs <;> exact Or.inl rfl)
  rw [if_neg h49]
  by_cases h50 : (parseArgs command).headD "" = "jobs"
  · rw [if_pos h50]
    first | exact Or.inl rfl | (split_ifs <;> exact Or.inl rfl)
  rw [if_neg h50]
  by_cases h51 : (parseArgs command).headD "" = "bg"
  · rw [if_pos h51]
    first | exact Or.inl rfl | (split_ifs <;> exact Or.inl rfl)
  rw [if_neg h51]
  by_cases h52 : (parseArgs command).headD "" = "fg"
  · rw [if_pos h52]
    first | exact Or.inl rfl | (split_ifs <;> exact Or.inl rfl)
  rw [if_neg h52]
  by_cases h53 : (parseArgs command).headD "" = "uptime"
  · rw [if_pos h53]
    first | exact Or.inl rfl | (split_ifs <;> exact Or.inl rfl)
  rw [if_neg h53]
  by_cases h54 : (parseArgs command).headD "" = "who"
  · rw [if_pos h54]
    first | exact Or.inl rfl | (split_ifs <;> exact Or.inl rfl)
  rw [if_neg h54]
  by_cases h55 : (parseArgs command).headD "" = "w"
  · rw [if_pos h55]
    first | exact Or.inl rfl | (split_ifs <;> exact Or.inl rfl)
  rw [if_neg h55]
  by_cases h56 : (parseArgs command).headD "" = "last"
  · rw [if_pos h56]
    first | exact Or.inl rfl | (split_ifs <;> exact Or.inl rfl)
  rw [if_neg h56]
  by_cases h57 : (parseArgs command).headD "" = "id"
  · rw [if_pos h57]
    first | exact Or.inl rfl | (split_ifs <;> exact Or.inl rfl)
  rw [if_neg h57]
  by_cases h58 : (parseArgs command).headD "" = "history"
  · rw [if_pos h58]
    first | exact Or.inl rfl | (split_ifs <;> exact Or.inl rfl)
  rw [if_neg h58]
  by_cases h59 : (parseArgs command).headD "" = "alias"
  · rw [if_pos h59]
    first | exact Or.inl rfl | (split_ifs <;> exact Or.inl rfl)
  rw [if_neg h59]
  by_cases h60 : (parseArgs command).headD "" = "unalias"
  · rw [if_pos h60]
    first | exact Or.inl rfl | (split_ifs <;> exact Or.inl rfl)
  rw [if_neg h60]
  by_cases h61 : (parseArgs command).headD "" = "type"
  · rw [if_pos h61]
    first | exact Or.inl rfl | (split_ifs <;> exact Or.inl rfl)
  rw [if_neg h61]
  by_cases h62 : (parseArgs command).headD "" = "file"
  · rw [if_pos h62]
    first | exact Or.inl rfl | (split_ifs <;> exact Or.inl rfl)
  rw [if_neg h62]
  by_cases h63 : (parseArgs command).headD "" = "stat"
  · rw [if_pos h63]
    first | exact Or.inl rfl | (split_ifs <;> exact Or.inl rfl)
  rw [if_neg h63]
  by_cases h64 : (parseArgs command).headD "" = "basename"
  · rw [if_pos h64]
    first | exact Or.inl rfl | (split_ifs <;> exact Or.inl rfl)
  rw [if_neg h64]
  by_cases h65 : (parseArgs command).headD "" = "dirname"
  · rw [if_pos h65]
    first | exact Or.inl rfl | (split_ifs <;> exact Or.inl rfl)
  rw [if_neg h65]
  by_cases h66 : (parseArgs command).headD "" = "cal"
  · rw [if_pos h66]
    first | exact Or.inl rfl | (split_ifs <;> exact Or.inl rfl)
  rw [if_neg h66]
  by_cases h67 : (parseArgs command).headD "" = "gzip"
  · rw [if_pos h67]
    first | exact Or.inl rfl | (split_ifs <;> exact Or.inl rfl)
  rw [if_neg h67]
  by_cases h68 : (parseArgs command).headD "" = "gunzip"
  · rw [if_pos h68]
    first | exact Or.inl rfl | (split_ifs <;> exact Or.inl rfl)
  rw [if_neg h68]
  by_cases h69 : (parseArgs command).headD "" = "zip"
  · rw [if_pos h69]
    first | exact Or.inl rfl | (split_ifs <;> exact Or.inl rfl)
  rw [if_neg h69]
  by_cases h70 : (parseArgs command).headD "" = "chgrp"
  · rw [if_pos h70]
    first | exact Or.inl rfl | (split_ifs <;> exact Or.inl rfl)
  rw [if_neg h70]
  by_cases h71 : (parseArgs command).headD "" = "umask"
  · rw [if_pos h71]
    first | exact Or.inl rfl | (split_ifs <;> exact Or.inl rfl)
  rw [if_neg h71]
  by_cases h72 : (parseArgs command).headD "" = "watch"
  · rw [if_pos h72]
    first | exact Or.inl rfl | (split_ifs <;> exact Or.inl rfl)
  rw [if_neg h72]
  by_cases h73 : (parseArgs command).headD "" = "screen"
  · rw [if_pos h73]
    first | exact Or.inl rfl | (split_ifs <;> exact Or.inl rfl)
  rw [if_neg h73]
  by_cases h74 : (parseArgs command).headD "" = "tmux"
  · rw [if_pos h74]
    first | exact Or.inl rfl | (split_ifs <;> exact Or.inl rfl)
  rw [if_neg h74]
  by_cases h75 : (parseArgs command).headD "" = "xargs"
  · rw [if_pos h75]
    first | exact Or.inl rfl | (split_ifs <;> exact Or.inl rfl)
  rw [if_neg h75]
  by_cases h76 : (parseArgs command).headD "" = "tee"
  · rw [if_pos h76]
    first | exact Or.inl rfl | (split_ifs <;> exact Or.inl rfl)
  rw [if_neg h76]
  by_cases h77 : (parseArgs command).headD "" = "help"
  · rw [if_pos h77]
    first | exact Or.inl rfl | (split_ifs <;> exact Or.inl rfl)
  rw [if_neg h77]
  by_cases h78 : (parseArgs command).headD "" = "nc"
  · rw [if_pos h78]
    first | exact Or.inl rfl | (split_ifs <;> exact Or.inl rfl)
  rw [if_neg h78]
  by_cases h79 : (parseArgs command).headD "" = "telnet"
  · rw [if_pos h79]
    first | exact Or.inl rfl | (split_ifs <;> exact Or.inl rfl)
  rw [if_neg h79]
  by_cases h80 : (parseArgs command).headD "" = "ssh"
  · rw [if_pos h80]
    first | exact Or.inl rfl | (split_ifs <;> exact Or.inl rfl)
  rw [if_neg h80]
  by_cases h81 : (parseArgs command).headD "" = "scp"
  · rw [if_pos h81]
    first | exact Or.inl rfl | (split_ifs <;> exact Or.inl rfl)
  rw [if_neg h81]
  by_cases h82 : (parseArgs command).headD "" = "rsync"
  · rw [if_pos h82]
    first | exact Or.inl rfl | (split_ifs <;> exact Or.inl rfl)
  rw [if_neg h82]
  by_cases h83 : (parseArgs command).headD "" = "arp"
  · rw [if_pos h83]
    first | exact Or.inl rfl | (split_ifs <;> exact Or.inl rfl)
  rw [if_neg h83]
  by_cases h84 : (parseArgs command).headD "" = "route"
  · rw [if_pos h84]
    first | exact Or.inl rfl | (split_ifs <;> exact Or.inl rfl)
  rw [if_neg h84]
  by_cases h85 : (parseArgs command).headD "" = "ip"
  · rw [if_pos h85]
    first | exact Or.inl rfl | (split_ifs <;> exact Or.inl rfl)
  rw [if_neg h85]
  by_cases h86 : (parseArgs command).headD "" = "ifconfig"
  · rw [if_pos h86]
    first | exact Or.inl rfl | (split_ifs <;> exact Or.inl rfl)
  rw [if_neg h86]
  by_cases h87 : (parseArgs command).headD "" = "iwconfig"
  · rw [if_pos h87]
    first | exact Or.inl rfl | (split_ifs <;> exact Or.inl rfl)
  rw [if_neg h87]
  by_cases h88 : (parseArgs command).headD "" = "host"
  · rw [if_pos h88]
    first | exact Or.inl rfl | (split_ifs <;> exact Or.inl rfl)
  rw [if_neg h88]
  by_cases h89 : (parseArgs command).headD "" = "tracepath"
  · rw [if_pos h89]
    first | exact Or.inl rfl | (split_ifs <;> exact Or.inl rfl)
  rw [if_neg h89]
  by_cases h90 : (parseArgs command).headD "" = "lsusb"
  · rw [if_pos h90]
    first | exact Or.inl rfl | (split_ifs <;> exact Or.inl rfl)
  rw [if_neg h90]
  by_cases h91 : (parseArgs command).headD "" = "lspci"
  · rw [if_pos h91]
    first | exact Or.inl rfl | (split_ifs <;> exact Or.inl rfl)
  rw [if_neg h91]
  by_cases h92 : (parseArgs command).headD "" = "mount"
  · rw [if_pos h92]
    first | exact Or.inl rfl | (split_ifs <;> exact Or.inl rfl)
  rw [if_neg h92]
  by_cases h93 : (parseArgs command).headD "" = "umount"
  · rw [if_pos h93]
    first | exact Or.inl rfl | (split_ifs <;> exact Or.inl rfl)
  rw [if_neg h93]
  by_cases h94 : (parseArgs command).headD "" = "nohup"
  · rw [if_pos h94]
    first | exact Or.inl rfl | (split_ifs <;> exact Or.inl rfl)
  rw [if_neg h94]
  exact Or.inl rfl

set_option maxHeartbeats 200000

/-- C10: every `executeCommand` invocation — error results included —
appends exactly one record to the history, leaves the VFS mapping
untouched, stamps the record with the pre-execution directory, and leaves
`currentDirectory` unchanged unless the invocation was a successful `cd`
(in which case the new directory is a VFS key). -/
theorem C10_execute_frame (env : Env) (st : TerminalState) (command : String) :
    (executeCommand env st command).2.history
        = st.history ++ [(executeCommand env st command).1] ∧
    (executeCommand env st command).2.fileSystem = st.fileSystem ∧
    (executeCommand env st command).1.directory = st.currentDirectory ∧
    ((executeCommand env st command).2.currentDirectory = st.currentDirectory ∨
      ((parseArgs command).headD "" = "cd" ∧
        (executeCommand env st command).1.exitCode = 0 ∧
        vfsHas st.fileSystem ((executeCommand env st command).2.currentDirectory)
          = true)) :=
  ⟨rfl, rfl, rfl, runCommand_newDirectory env st command⟩

/-! ## Concrete instances of the universally quantified theorems -/

/-- Witness for C1 at a concrete input. -/
theorem C1_static_phase_witness :
    staticFind "fin" =
      (workflowPatterns.find? fun pv => startsWithStr pv.1 "fin" && pv.1 != "fin").map
        Prod.snd :=
  C1_static_phase "fin"

/-- Witness for C5 at a concrete invocation. -/
theorem C5_history_append_witness :
    (executeCommand env0 initialState "pwd").2.history
        = initialState.history ++ [(executeCommand env0 initialState "pwd").1] ∧
    (executeCommand env0 initialState "pwd").2.history.length
        = initialState.history.length + 1 ∧
    (clearHistory initialState).history = [] ∧
    (clearHistory initialState).currentDirectory = initialState.currentDirectory :=
  C5_history_append env0 initialState "pwd"

/-- Witness for C10 at a concrete invocation. -/
theorem C10_execute_frame_witness :
    (executeCommand env0 initialState "cd projects").2.history
        = initialState.history ++ [(executeCommand env0 initialState "cd projects").1] ∧
    (executeCommand env0 initialState "cd projects").2.fileSystem
        = initialState.fileSystem ∧
    (executeCommand env0 initialState "cd projects").1.directory
        = initialState.currentDirectory ∧
    ((executeCommand env0 initialState "cd projects").2.currentDirectory
        = initialState.currentDirectory ∨
      ((parseArgs "cd projects").headD "" = "cd" ∧
        (executeCommand env0 initialState "cd projects").1.exitCode = 0 ∧
        vfsHas initialState.fileSystem
          ((executeCommand env0 initialState "cd projects").2.currentDirectory)
          = true)) :=
  C10_execute_frame env0 initialState "cd projects"

end AITerm
